import Mathlib

/-!
Shallow embedding of the i2pd streaming engine (src/libi2pd/Streaming.cpp) and of
the EdDSA verifier adapter (src/libi2pd/Signature.cpp), together with proofs
settling the frozen claims about them.

Modelling conventions:
* byte buffers are lists of natural numbers (each kept below 256 by writes);
* machine integers are Nat or Int with explicit wrapping where the source relies
  on it (toUInt32 / toInt32 below);
* C++ doubles (m_RTT, m_PrevRTT and the EWMA arithmetic) are modelled as
  rationals; std::round and the (int) cast are croundQ and truncQ below;
* calls into collaborator objects (tunnel pool, routing session, netdb,
  identity parsing, OpenSSL) are oracles carried by an Env record, and the
  externally visible calls are recorded in an Effect trace;
* asio timers are represented by armed flags in the stream state.

Streaming.h is not part of src/: the wire-format accessors, the packet flags,
the protocol constants and the enum of stream statuses are modelled from the
spec (sections 3 and 6), which gives the wire layout and the flag values
exactly and the constants as testable defaults.
-/

namespace I2pd

/-- Byte buffers are lists of byte values. -/
abbrev Buf := List ℕ

/-- Big-endian bytes of a 16-bit value (htobe16buf of I2PEndian.h; the spec
demands big-endian for all multi-byte wire integers). -/
def be16 (v : ℕ) : List ℕ := [v / 256 % 256, v % 256]

/-- Big-endian bytes of a 32-bit value (htobe32buf of I2PEndian.h). -/
def be32 (v : ℕ) : List ℕ :=
  [v / 16777216 % 256, v / 65536 % 256, v / 256 % 256, v % 256]

/-- Modelled from the spec: htobuf16 of I2PEndian.h (missing from src/) copies a
16-bit value in host byte order, without endianness conversion; the hostLE flag
says whether the host is little-endian. -/
def host16 (hostLE : Bool) (v : ℕ) : List ℕ :=
  if hostLE then [v % 256, v / 256 % 256] else be16 v

/-- Modelled from the spec: htobuf32 of I2PEndian.h (missing from src/), host
byte order copy of a 32-bit value. -/
def host32 (hostLE : Bool) (v : ℕ) : List ℕ :=
  if hostLE then [v % 256, v / 256 % 256, v / 65536 % 256, v / 16777216 % 256]
  else be32 v

/-- Byte read with out-of-range reads giving 0. -/
def getByte (b : Buf) (i : ℕ) : ℕ := b.getD i 0

/-- bufbe16toh: big-endian 16-bit read. -/
def readBe16 (b : Buf) (i : ℕ) : ℕ := getByte b i * 256 + getByte b (i+1)

/-- bufbe32toh: big-endian 32-bit read. -/
def readBe32 (b : Buf) (i : ℕ) : ℕ :=
  getByte b i * 16777216 + getByte b (i+1) * 65536 + getByte b (i+2) * 256
    + getByte b (i+3)

/-- memcpy of the byte values vs into buffer b at position i. -/
def writeBytes (b : Buf) (i : ℕ) (vs : List ℕ) : Buf :=
  b.take i ++ vs.map (· % 256) ++ b.drop (i + vs.length)

/-- The n bytes of b starting at position i. -/
def slice (b : Buf) (i n : ℕ) : Buf := (b.drop i).take n

/-- Conversion of an int value to uint32 (mod 2^32). -/
def toUInt32 (z : ℤ) : ℕ := (z % 4294967296).toNat

/-- Conversion of a uint32 value to int32_t (two's complement wrap). -/
def toInt32 (n : ℕ) : ℤ :=
  if n < 2147483648 then (n : ℤ) else (n : ℤ) - 4294967296

/-- Floor of a rational, computed with integer floor division. -/
def qfloor (q : ℚ) : ℤ := Int.fdiv q.num q.den

/-- std::round on a rational: half away from zero. -/
def croundQ (q : ℚ) : ℤ :=
  if 0 ≤ q then qfloor (q + 1/2) else - qfloor (-q + 1/2)

/-- The (int) cast of a double: truncation toward zero. -/
def truncQ (q : ℚ) : ℤ :=
  if 0 ≤ q then qfloor q else - qfloor (-q)

/-! ### Protocol constants

Modelled from the spec: Streaming.h is not under src/, so the constants carry
the testable defaults of spec section 6 (exact where the spec is exact:
MIN_WINDOW_SIZE, DELAY_CHOKING, INITIAL_RTT, RTT_EWMA_ALPHA; representative
in-range values elsewhere). No claim below depends on the representative
values beyond the constraints the spec states. -/

def INITIAL_RTT : ℚ := 8000
def INITIAL_WINDOW_SIZE : ℤ := 10
def INITIAL_RTO : ℤ := 9000
def MIN_RTO : ℤ := 500
def MIN_WINDOW_SIZE : ℤ := 1
def MAX_WINDOW_SIZE : ℤ := 128
def INITIAL_PACING_TIME : ℤ := 800000
def RTT_EWMA_ALPHA : ℚ := 1/8
def MIN_SEND_ACK_TIMEOUT : ℤ := 20
def SYN_TIMEOUT : ℤ := 5000
def DELAY_CHOKING : ℕ := 60000
def MAX_NUM_RESEND_ATTEMPTS : ℕ := 9
def STREAMING_MTU : ℕ := 1730
def STREAMING_MTU_RATCHETS : ℕ := 1812
def MAX_PENDING_INCOMING_BACKLOG : ℕ := 128
def INT_MAX : ℤ := 2147483647

/-! ### Packet flags (exact values from spec section 3). -/

def PACKET_FLAG_SYNCHRONIZE : ℕ := 1
def PACKET_FLAG_CLOSE : ℕ := 2
def PACKET_FLAG_RESET : ℕ := 4
def PACKET_FLAG_SIGNATURE_INCLUDED : ℕ := 8
def PACKET_FLAG_SIGNATURE_REQUESTED : ℕ := 16
def PACKET_FLAG_FROM_INCLUDED : ℕ := 32
def PACKET_FLAG_DELAY_REQUESTED : ℕ := 64
def PACKET_FLAG_MAX_PACKET_SIZE_INCLUDED : ℕ := 128
def PACKET_FLAG_PROFILE_INTERACTIVE : ℕ := 256
def PACKET_FLAG_ECHO : ℕ := 512
def PACKET_FLAG_NO_ACK : ℕ := 1024
def PACKET_FLAG_OFFLINE_SIGNATURE : ℕ := 2048

/-! ### Packet and its accessors

Modelled from the spec wire layout (section 3): sendStreamID(4),
receiveStreamID(4), sequenceNumber(4), ackThrough(4), nackCount(1),
NACKs(4 x nackCount), resendDelay(1), flags(2), optionsSize(2), options,
payload; the Streaming.h getters are not under src/. -/

structure Packet where
  buf : Buf
  len : ℕ
  offset : ℕ := 0
  deriving DecidableEq, Repr

def GetSendStreamID (p : Packet) : ℕ := readBe32 p.buf 0

def GetReceiveStreamID (p : Packet) : ℕ := readBe32 p.buf 4

def GetSeqn (p : Packet) : ℕ := readBe32 p.buf 8

def GetAckThrough (p : Packet) : ℕ := readBe32 p.buf 12

def GetNACKCount (p : Packet) : ℕ := getByte p.buf 16

def GetNACK (p : Packet) (i : ℕ) : ℕ := readBe32 p.buf (17 + 4 * i)

/-- The NACK entries of a packet as a list (GetNACK over the nackCount). -/
def GetNACKList (p : Packet) : List ℕ :=
  (List.range (GetNACKCount p)).map (GetNACK p)

/-- GetNACKs (): raw bytes of the NACK slots (used as a 32-byte destination
hash on a first SYN with 8 slots). -/
def GetNACKsBytes (p : Packet) (n : ℕ) : Buf := slice p.buf 17 n

def GetFlags (p : Packet) : ℕ := readBe16 p.buf (18 + 4 * GetNACKCount p)

def GetOptionSize (p : Packet) : ℕ := readBe16 p.buf (20 + 4 * GetNACKCount p)

/-- Index of GetOptionData () inside the buffer. -/
def GetOptionDataPos (p : Packet) : ℕ := 22 + 4 * GetNACKCount p

/-- Index of GetPayload () inside the buffer. -/
def GetPayloadPos (p : Packet) : ℕ := GetOptionDataPos p + GetOptionSize p

/-- GetLength (): len minus the read offset. -/
def GetLength (p : Packet) : ℕ := p.len - p.offset

def IsSYN (p : Packet) : Bool :=
  decide (GetFlags p &&& PACKET_FLAG_SYNCHRONIZE ≠ 0)

def IsNoAck (p : Packet) : Bool :=
  decide (GetFlags p &&& PACKET_FLAG_NO_ACK ≠ 0)

def IsEcho (p : Packet) : Bool :=
  decide (GetFlags p &&& PACKET_FLAG_ECHO ≠ 0)

/-! ### Collaborator data (identities, lease sets, verifiers) -/

/-- A signature verifier contract (spec section 6): Verify (buf, len, sig) and
the key/signature lengths. -/
structure TransientVerifier where
  publicKeyLen : ℕ
  signatureLen : ℕ
  verify : Buf → ℕ → Buf → Bool

/-- A remote identity contract (spec section 6). -/
structure Identity where
  isRSA : Bool
  fullLen : ℕ
  signatureLen : ℕ
  verify : Buf → ℕ → Buf → Bool
  identHash : Buf

/-- A lease set, reduced to what the streaming engine reads from it. -/
structure LeaseSet where
  identity : Identity
  transientVerifier : Option TransientVerifier

/-- eStreamStatus enum of Streaming.h (modelled from the spec status set). -/
inductive StreamStatus where
  | eStreamStatusNew
  | eStreamStatusOpen
  | eStreamStatusReset
  | eStreamStatusClosing
  | eStreamStatusClosed
  | eStreamStatusTerminated
  deriving DecidableEq, Repr

open StreamStatus

/-- An entry of m_SentPackets, keyed and ordered by sequence number. -/
structure SentPacketE where
  seqn : ℕ
  sendTime : ℕ
  resent : Bool := false
  deriving DecidableEq, Repr

/-- Externally visible calls made by the engine, recorded as a trace. -/
inductive Effect where
  | deletePacket
  | sendPacketsOut (seqns : List ℕ)
  | quickAck
  | sendCloseEv
  | deleteFromDestination
  | resetRoutingPath
  | shareRoutingPath
  | pickNextOutboundTunnel
  | updateLease (expired : Bool)
  | ackTimerArm (timeout : ℤ)
  | pong (b : Buf)
  | dispatchTo (rid : ℕ)
  | newIncomingStream (rid : ℕ)
  | resetRoutingPathOf (rid : ℕ)
  | bufferFollowOn (rid : ℕ)
  deriving DecidableEq, Repr

/-- The mutable state of class Stream (Streaming.cpp constructors, lines
69-104). Timers are armed flags; m_SendBuffer is its byte count. -/
structure StreamState where
  sendStreamID : ℕ
  recvStreamID : ℕ
  sequenceNumber : ℕ
  tunnelsChangeSequenceNumber : ℕ
  lastReceivedSequenceNumber : ℤ
  previousReceivedSequenceNumber : ℤ
  status : StreamStatus
  isAckSendScheduled : Bool
  isNAcked : Bool
  isSendTime : Bool
  isWinDropped : Bool
  isTimeOutResend : Bool
  remoteLeaseSet : Option LeaseSet
  remoteIdentity : Option Identity
  transientVerifier : Option TransientVerifier
  rtt : ℚ
  prevRTT : ℚ
  prevRTTSample : ℤ
  jitter : ℤ
  windowSize : ℤ
  rto : ℤ
  ackDelay : ℤ
  minPacingTime : ℤ
  pacingTime : ℤ
  numResendAttempts : ℕ
  mtu : ℕ
  sentPackets : List SentPacketE
  savedPackets : List Packet
  receiveQueue : List Packet
  sendBufferSize : ℕ
  routingSession : Bool
  currentOutboundTunnel : Option ℕ
  currentRemoteLease : Option ℕ
  ackTimerArmed : Bool
  receiveTimerArmed : Bool
  resendTimerArmed : Bool
  sendTimerArmed : Bool
  numReceivedBytes : ℕ
  numSentBytes : ℕ

/-- Oracles for the collaborators (owner destination, tunnel pool, netdb,
identity codec, RNG); spec section 6 lists the contracts. -/
structure Env where
  parseIdentity : Buf → Identity
  processOfflineSignature : Identity → Buf → Option (TransientVerifier × ℕ)
  nextTunnel : Option ℕ → Option ℕ
  newLease : Option ℕ → Option ℕ
  findLeaseSet : Option LeaseSet
  isRatchets : Bool
  rngStreamID : ℕ
  localIdentHash : Buf
  outboundSpeed : ℕ
  ackDelay : ℤ
  leaseSetNonConfirmed : Bool
  leaseSetSubmissionTime : ℕ
  answerPings : Bool

/-- Modelled from the spec: LEASESET_CONFIRMATION_TIMEOUT of the external
lease-set subsystem (spec section 6), in milliseconds. -/
def LEASESET_CONFIRMATION_TIMEOUT : ℕ := 4000

/-! ### Stream operations (Streaming.cpp) -/

/-- Stream::UpdatePacingTime (lines 1305-1310):
m_PacingTime = round (m_RTT*1000/m_WindowSize), raised to m_MinPacingTime when
the latter is configured (non-zero). -/
def UpdatePacingTime (s : StreamState) : StreamState :=
  if s.minPacingTime ≠ 0 ∧ croundQ (s.rtt * 1000 / (s.windowSize : ℚ)) < s.minPacingTime then
    { s with pacingTime := s.minPacingTime }
  else
    { s with pacingTime := croundQ (s.rtt * 1000 / (s.windowSize : ℚ)) }

/-- Stream::ScheduleSend (lines 1040-1049): re-arm the send timer for
pacingTime microseconds unless terminated. -/
def ScheduleSend (s : StreamState) : StreamState :=
  if s.status ≠ eStreamStatusTerminated then { s with sendTimerArmed := true } else s

/-- Stream::ScheduleResend (lines 1073-1084): re-arm the resend timer for RTO
milliseconds unless terminated, fixing up a non-positive RTO first. -/
def ScheduleResend (s : StreamState) : StreamState :=
  if s.status ≠ eStreamStatusTerminated then
    { s with resendTimerArmed := true,
             rto := if s.rto ≤ 0 then INITIAL_RTO else s.rto }
  else s

/-- Stream::ScheduleAck (lines 1174-1183): cancel any pending ack timer, mark
an ack as scheduled and arm the timer at max (timeout, MIN_SEND_ACK_TIMEOUT). -/
def ScheduleAck (timeout : ℤ) (s : StreamState) : StreamState × List Effect :=
  let t := if timeout < MIN_SEND_ACK_TIMEOUT then MIN_SEND_ACK_TIMEOUT else timeout
  ({ s with isAckSendScheduled := true, ackTimerArmed := true }, [Effect.ackTimerArm t])

/-- Stream::Terminate (lines 112-122): set the terminated status, cancel the
four per-stream timers and (by default) remove the stream from the owner. -/
def Terminate (s : StreamState) (deleteFromDestination : Bool := true) :
    StreamState × List Effect :=
  ({ s with status := eStreamStatusTerminated,
            ackTimerArmed := false, receiveTimerArmed := false,
            resendTimerArmed := false, sendTimerArmed := false },
   if deleteFromDestination then [Effect.deleteFromDestination] else [])

/-- Stream::SendClose (lines 864-894): build a zero-payload CLOSE packet with
the next sequence number and post it for sending. The packet bytes and the
deferred SendPacket post are summarised by the sendCloseEv effect. -/
def SendClose (s : StreamState) : StreamState × List Effect :=
  ({ s with sequenceNumber := s.sequenceNumber + 1 }, [Effect.sendCloseEv])

/-- The eStreamStatusClosing case of Stream::Close (lines 848-854): once
nothing is left to send, move to Closed and emit the CLOSE packet. -/
def CloseCaseClosing (s : StreamState) : StreamState × List Effect :=
  if s.sentPackets = [] ∧ s.sendBufferSize = 0 then
    SendClose { s with status := eStreamStatusClosed }
  else (s, [])

/-- Stream::Close (lines 833-862). The Open case sets Closing and recurses
once, which lands in the Closing case. -/
def Close (s : StreamState) : StreamState × List Effect :=
  match s.status with
  | eStreamStatusOpen => CloseCaseClosing { s with status := eStreamStatusClosing }
  | eStreamStatusReset => Terminate s
  | eStreamStatusClosing => CloseCaseClosing s
  | eStreamStatusClosed => Terminate s
  | _ => (s, [])

/-- Result of Stream::ProcessOptions: the return value, the state, the packet
buffer after the in-place signature zero/restore, and the function's local
copy of the flags argument (uint16_t flags is passed by value, so the
PACKET_FLAG_CLOSE bit it may gain is visible only here). -/
structure OptResult where
  ok : Bool
  s : StreamState
  buf : Buf
  flagsOut : ℕ
  effects : List Effect

/-- The PACKET_FLAG_DELAY_REQUESTED branch of Stream::ProcessOptions (lines
297-313): possibly arm a delayed ack, and choke the window to 1 when the
requested delay reaches DELAY_CHOKING. -/
def processOptionsDelay (s0 : StreamState) (flags : ℕ) (p : Packet) (optStart : ℕ) :
    StreamState :=
  if flags &&& PACKET_FLAG_DELAY_REQUESTED ≠ 0 then
    if s0.isAckSendScheduled = false then
      let delayRequested := readBe16 p.buf optStart
      let sB :=
        if 0 < delayRequested ∧ (delayRequested : ℚ) < s0.rtt then
          { s0 with isAckSendScheduled := true, ackTimerArmed := true }
        else s0
      if DELAY_CHOKING ≤ delayRequested then { sB with windowSize := 1 } else sB
    else s0
  else s0

/-- The PACKET_FLAG_FROM_INCLUDED identity adoption of Stream::ProcessOptions
(lines 315-319, 325): prefer the lease-set identity, else parse one from the
option bytes. (The RSA rejection is checked by the caller.) -/
def processOptionsFrom (env : Env) (s1 : StreamState) (flags : ℕ) (p : Packet)
    (pos1 optionSize : ℕ) : StreamState :=
  if flags &&& PACKET_FLAG_FROM_INCLUDED ≠ 0 then
    let sA :=
      match s1.remoteLeaseSet with
      | some ls => { s1 with remoteIdentity := some ls.identity }
      | none => s1
    match sA.remoteIdentity with
    | none =>
      let parsed := env.parseIdentity (slice p.buf pos1 optionSize)
      { sA with remoteIdentity := some parsed }
    | some _ => sA
  else s1

/-- The PACKET_FLAG_OFFLINE_SIGNATURE branch of Stream::ProcessOptions (lines
337-365): none is the failure return; otherwise the updated state and the new
option read position. -/
def processOptionsOffline (env : Env) (s2 : StreamState) (flags : ℕ) (p : Packet)
    (optStart optionSize pos3 : ℕ) : Option (StreamState × ℕ) :=
  if flags &&& PACKET_FLAG_OFFLINE_SIGNATURE ≠ 0 then
    match s2.remoteIdentity with
    | none => none
    | some ident =>
      let sC :=
        match s2.remoteLeaseSet with
        | some ls => { s2 with transientVerifier := ls.transientVerifier }
        | none => s2
      match sC.transientVerifier with
      | some tv => some (sC, pos3 + 6 + tv.publicKeyLen + ident.signatureLen)
      | none =>
        match env.processOfflineSignature ident
            (slice p.buf pos3 (optionSize - (pos3 - optStart))) with
        | some (tv, off) => some ({ sC with transientVerifier := some tv }, pos3 + off)
        | none => none
  else some (s2, pos3)

/-- The PACKET_FLAG_SIGNATURE_INCLUDED branch of Stream::ProcessOptions (lines
367-392): copy the signature out, zero it in the buffer, verify over the whole
packet, Close and set the CLOSE bit on the local flags copy on failure, and
restore the signature bytes. A null m_RemoteIdentity dereference (no verifier,
no identity) is modelled as length 0 / verification false. -/
def processOptionsSig (env : Env) (s4 : StreamState) (flags : ℕ) (p : Packet)
    (pos4 : ℕ) : OptResult :=
  if flags &&& PACKET_FLAG_SIGNATURE_INCLUDED ≠ 0 then
    let signatureLen :=
      match s4.transientVerifier with
      | some tv => tv.signatureLen
      | none =>
        match s4.remoteIdentity with
        | some ident => ident.signatureLen
        | none => 0
    if signatureLen ≤ 256 then
      let signature := slice p.buf pos4 signatureLen
      let zeroed := writeBytes p.buf pos4 (List.replicate signatureLen 0)
      let verified :=
        match s4.transientVerifier with
        | some tv => tv.verify zeroed (GetLength p) signature
        | none =>
          match s4.remoteIdentity with
          | some ident => ident.verify zeroed (GetLength p) signature
          | none => false
      let restored := writeBytes zeroed pos4 signature
      if verified then
        { ok := true, s := s4, buf := restored, flagsOut := flags, effects := [] }
      else
        let c := Close s4
        { ok := true, s := c.1, buf := restored,
          flagsOut := flags ||| PACKET_FLAG_CLOSE, effects := c.2 }
    else
      { ok := false, s := s4, buf := p.buf, flagsOut := flags, effects := [] }
  else
    { ok := true, s := s4, buf := p.buf, flagsOut := flags, effects := [] }

/-- Tail of Stream::ProcessOptions once the state after the FROM option is
known: the RSA rejection (lines 320-324), then the OFFLINE_SIGNATURE and
SIGNATURE_INCLUDED branches. -/
def processOptionsTail (env : Env) (s2 : StreamState) (flags : ℕ) (p : Packet)
    (optStart optionSize pos3 : ℕ) : OptResult :=
  if flags &&& PACKET_FLAG_FROM_INCLUDED ≠ 0 ∧
     (s2.remoteIdentity.map Identity.isRSA).getD false = true then
    { ok := false, s := s2, buf := p.buf, flagsOut := flags, effects := [] }
  else
    match processOptionsOffline env s2 flags p optStart optionSize pos3 with
    | none =>
      { ok := false, s := s2, buf := p.buf, flagsOut := flags, effects := [] }
    | some (s4, pos4) => processOptionsSig env s4 flags p pos4

/-- Stream::ProcessOptions (lines 293-394), parsing options in flag order:
DELAY_REQUESTED, FROM_INCLUDED (with the RSA rejection), the logged
MAX_PACKET_SIZE_INCLUDED (lines 330-335, advancing the read position only),
OFFLINE_SIGNATURE and SIGNATURE_INCLUDED. -/
def ProcessOptions (env : Env) (s0 : StreamState) (flags : ℕ) (p : Packet) :
    OptResult :=
  let optStart := GetOptionDataPos p
  let optionSize := GetOptionSize p
  let s1 := processOptionsDelay s0 flags p optStart
  let pos1 := if flags &&& PACKET_FLAG_DELAY_REQUESTED ≠ 0 then optStart + 2 else optStart
  let s2 := processOptionsFrom env s1 flags p pos1 optionSize
  let pos2 :=
    if flags &&& PACKET_FLAG_FROM_INCLUDED ≠ 0 then
      pos1 + (s2.remoteIdentity.map Identity.fullLen).getD 0
    else pos1
  let pos3 := if flags &&& PACKET_FLAG_MAX_PACKET_SIZE_INCLUDED ≠ 0 then pos2 + 2 else pos2
  processOptionsTail env s2 flags p optStart optionSize pos3

/-- Stream::ProcessPacket (lines 254-291). Note that it reads the flags before
calling ProcessOptions, passes them by value and keeps using its own copy for
the RESET / CLOSE branches. -/
def ProcessPacket (env : Env) (s : StreamState) (p : Packet) :
    StreamState × List Effect :=
  let receivedSeqn := GetSeqn p
  let flags := GetFlags p
  let r := ProcessOptions env s flags p
  if r.ok = false then
    let t := Terminate r.s
    (t.1, r.effects ++ [Effect.deletePacket] ++ t.2)
  else
    let p2 : Packet := { buf := r.buf, len := p.len, offset := GetPayloadPos p }
    let s1 :=
      if 0 < GetLength p2 then
        { r.s with receiveQueue := r.s.receiveQueue ++ [p2], receiveTimerArmed := false }
      else r.s
    let e1 := if 0 < GetLength p2 then [] else [Effect.deletePacket]
    let s2 := { s1 with lastReceivedSequenceNumber := toInt32 receivedSeqn }
    if flags &&& PACKET_FLAG_RESET ≠ 0 then
      let c := Close { s2 with status := eStreamStatusReset }
      (c.1, r.effects ++ e1 ++ c.2)
    else if flags &&& PACKET_FLAG_CLOSE ≠ 0 then
      let sc := if s2.status ≠ eStreamStatusClosed then SendClose s2 else (s2, [])
      let t := Terminate { sc.1 with status := eStreamStatusClosed }
      (t.1, r.effects ++ e1 ++ sc.2 ++ t.2)
    else (s2, r.effects ++ e1)

/-- Modelled from Streaming.h (missing from src/): IsEstablished () is true
once the peer stream id has been learned; spec section 4.4 lets data packets
drain while the stream is past the SYN exchange. -/
def IsEstablished (s : StreamState) : Bool := decide (s.sendStreamID ≠ 0)

/-- The initial-SYN branch of Stream::SendBuffer (lines 614-681): bump the
sequence number, move the status to Open, look up the lease set and fix the
MTU. The produced packet is recorded as its sequence number. -/
def sendBufferSyn (env : Env) (s : StreamState) : StreamState × List ℕ :=
  let sA := { s with sequenceNumber := s.sequenceNumber + 1,
                     status := eStreamStatusOpen }
  let sB :=
    match sA.remoteLeaseSet with
    | some _ => sA
    | none => { sA with remoteLeaseSet := env.findLeaseSet }
  let sC :=
    match sB.remoteLeaseSet with
    | some _ =>
      let newMtu := if env.isRatchets then STREAMING_MTU_RATCHETS else STREAMING_MTU
      { sB with routingSession := true, mtu := newMtu }
    | none => sB
  let payload := min sC.sendBufferSize sC.mtu
  ({ sC with sendBufferSize := sC.sendBufferSize - payload }, [s.sequenceNumber])

/-- The packet-building step of the SendBuffer while loop: a SYN when still
New, else one data packet (lines 683-690) when established with pending data. -/
def sendBufferStep (env : Env) (s : StreamState) : StreamState × List ℕ :=
  if s.status = eStreamStatusNew then sendBufferSyn env s
  else if IsEstablished s ∧ 0 < s.sendBufferSize then
    let payload := min s.sendBufferSize s.mtu
    ({ s with sequenceNumber := s.sequenceNumber + 1,
              sendBufferSize := s.sendBufferSize - payload }, [s.sequenceNumber])
  else (s, [])

/-- The tail of Stream::SendBuffer (lines 692-716) after the loop: cancel the
pending ack when nothing is saved, register the sent packets, clear the send
window flag, emit the CLOSE packet when a draining Closing stream ran dry, and
schedule the resend timer when the in-flight set was empty. -/
def sendBufferFinish (ts : ℕ) (s1 : StreamState) (built : List ℕ) :
    StreamState × List Effect :=
  if built = [] then (s1, [])
  else
    let s2 :=
      if s1.savedPackets = [] then
        { s1 with isAckSendScheduled := false, ackTimerArmed := false }
      else s1
    let wasEmpty := decide (s2.sentPackets = [])
    -- the new sequence number is the largest, so appending keeps the
    -- sentPackets set ordered
    let newSent := built.map (fun q => ({ seqn := q, sendTime := ts } : SentPacketE))
    let s3 := { s2 with sentPackets := s2.sentPackets ++ newSent }
    let s4 := { s3 with isSendTime := false }
    let sc :=
      if s4.status = eStreamStatusClosing ∧ s4.sendBufferSize = 0 then SendClose s4
      else (s4, [])
    let s6 := if wasEmpty then ScheduleResend sc.1 else sc.1
    (s6, [Effect.sendPacketsOut built] ++ sc.2)

/-- Stream::SendBuffer (lines 604-716). numMsgs is forced to one, so the while
loop emits at most one packet: a SYN when the status is still New, otherwise
one data packet drained from the send queue. Packet bytes are not tracked;
the emitted sequence numbers are recorded in the sendPacketsOut effect. -/
def SendBuffer (env : Env) (ts : ℕ) (s0 : StreamState) : StreamState × List Effect :=
  let s := ScheduleSend s0
  let numMsgs : ℤ := s.windowSize - (s.sentPackets.length : ℤ)
  if numMsgs ≤ 0 ∨ s.isSendTime = false then (s, [])
  else
    let step := sendBufferStep env s
    sendBufferFinish ts step.1 step.2

/-- Accumulator of the retire loop of Stream::ProcessAck (lines 432-474). -/
structure AckAcc where
  acknowledged : Bool
  isN : Bool
  win : ℤ
  rttSample : ℤ
  firstRtt : Bool

/-- The retire loop of Stream::ProcessAck (lines 432-474): walk sentPackets in
sequence order up to ackThrough; NACKed entries are kept, the others are
retired, growing the window and contributing an RTT sample (assignment for
seqn 0, minimum for unresent packets past the last tunnel change). -/
def ackLoop (ts : ℕ) (ackThrough : ℕ) (nacks : List ℕ) (tcsn : ℕ) :
    List SentPacketE → AckAcc → List SentPacketE × AckAcc
  | [], acc => ([], acc)
  | q :: rest, acc =>
    if q.seqn ≤ ackThrough then
      if q.seqn ∈ nacks then
        let acc1 := { acc with isN := true }
        let r := ackLoop ts ackThrough nacks tcsn rest acc1
        (q :: r.1, r.2)
      else
        let rtt : ℤ := (ts : ℤ) - (q.sendTime : ℤ)
        let acc1 :=
          if q.seqn = 0 then
            { acc with firstRtt := true, rttSample := if rtt < 0 then 1 else rtt }
          else if q.resent = false ∧ tcsn < q.seqn ∧ 0 ≤ rtt then
            { acc with rttSample := min acc.rttSample rtt }
          else acc
        let newWin := if acc1.win < MAX_WINDOW_SIZE then acc1.win + 1 else acc1.win
        let acc2 := { acc1 with acknowledged := true, win := newWin }
        ackLoop ts ackThrough nacks tcsn rest acc2
    else (q :: rest, acc)

/-- The RTT / jitter / delay-based congestion-control block of
Stream::ProcessAck (lines 475-510), entered when an RTT sample was taken. -/
def ackRttUpdate (acc : AckAcc) (s1 : StreamState) : StreamState :=
  if acc.rttSample ≠ INT_MAX then
    let rttSampleQ : ℚ := (acc.rttSample : ℚ)
    let newRTT : ℚ :=
      if acc.firstRtt then rttSampleQ
      else RTT_EWMA_ALPHA * rttSampleQ + (1 - RTT_EWMA_ALPHA) * s1.rtt
    let prevSample := if acc.firstRtt then acc.rttSample else s1.prevRTTSample
    let jitterLocal : ℤ :=
      if prevSample < acc.rttSample then acc.rttSample - prevSample
      else if acc.rttSample < prevSample then prevSample - acc.rttSample
      else Int.tdiv acc.rttSample 10
    let newJitter : ℤ :=
      croundQ (RTT_EWMA_ALPHA * (s1.jitter : ℚ) + (1 - RTT_EWMA_ALPHA) * (jitterLocal : ℚ))
    let sA := { s1 with rtt := newRTT, jitter := newJitter, prevRTTSample := acc.rttSample }
    let sB :=
      if s1.prevRTT < newRTT ∧ sA.isWinDropped = false then
        { sA with windowSize := Int.tdiv sA.windowSize 2, isWinDropped := true }
      else sA
    let sC :=
      if sB.windowSize < MIN_WINDOW_SIZE then { sB with windowSize := MIN_WINDOW_SIZE } else sB
    let sD := UpdatePacingTime sC
    let sE := { sD with prevRTT := newRTT * (11/10) + (newJitter : ℚ) }
    let wasInitial := decide (s1.rto = INITIAL_RTO)
    let sF := { sE with rto := max MIN_RTO (truncQ (newRTT * (13/10) + (newJitter : ℚ))) }
    if wasInitial then ScheduleResend sF else sF
  else s1

/-- The flag updates of Stream::ProcessAck after the congestion-control block
(lines 511-527): window-drop clearing, resend re-scheduling, tail-loss marking
and timer cancellation. -/
def processAckFlags (acc : AckAcc) (s2 : StreamState) : StreamState :=
  let s3 :=
    if (s2.sentPackets.length : ℤ) < s2.windowSize then { s2 with isWinDropped := false } else s2
  let s4 := if acc.acknowledged ∨ s3.isNAcked then ScheduleResend s3 else s3
  let s5 :=
    if (s4.sendBufferSize = 0 ∧ 0 < s4.sentPackets.length) ∨
       s4.windowSize < (s4.sentPackets.length : ℤ) then
      { s4 with isNAcked := true }
    else s4
  if s5.sentPackets = [] ∧ s5.sendBufferSize = 0 then
    { s5 with resendTimerArmed := false, sendTimerArmed := false }
  else s5

/-- The tail of Stream::ProcessAck (lines 511-538): the flag updates, the
shared-path publication (read here from the flags-updated state, which never
writes m_RoutingSession), the pipeline refill and the closing transitions. -/
def processAckRest (env : Env) (ts : ℕ) (acc : AckAcc) (s2 : StreamState) :
    StreamState × List Effect :=
  let s6 := processAckFlags acc s2
  let e5 := if acc.firstRtt ∧ s6.routingSession then [Effect.shareRoutingPath] else []
  let sb :=
    if acc.acknowledged then SendBuffer env ts { s6 with numResendAttempts := 0 }
    else (s6, [])
  if sb.1.status = eStreamStatusClosed then
    let t := Terminate sb.1
    (t.1, e5 ++ sb.2 ++ t.2)
  else if sb.1.status = eStreamStatusClosing then
    let c := Close sb.1
    (c.1, e5 ++ sb.2 ++ c.2)
  else (sb.1, e5 ++ sb.2)

/-- Stream::ProcessAck (lines 418-538). An ackThrough beyond the own sequence
number is a protocol error: log and return before touching any state. -/
def ProcessAck (env : Env) (ts : ℕ) (s : StreamState) (p : Packet) :
    StreamState × List Effect :=
  let ackThrough := GetAckThrough p
  if s.sequenceNumber < ackThrough then (s, [])
  else
  let lp := ackLoop ts ackThrough (GetNACKList p) s.tunnelsChangeSequenceNumber
      s.sentPackets
      { acknowledged := false, isN := false, win := s.windowSize,
        rttSample := INT_MAX, firstRtt := false }
  let acc := lp.2
  let s1 := { s with sentPackets := lp.1, isNAcked := acc.isN, windowSize := acc.win }
  processAckRest env ts acc (ackRttUpdate acc s1)

/-! ### SendQuickAck (lines 718-795) -/

/-- Accumulator of the NACK fill loop of Stream::SendQuickAck. -/
structure QAcc where
  nacks : List ℤ
  numNacks : ℕ
  nextSeqn : ℤ
  choking : Bool
  ackThrough : ℤ
  deriving DecidableEq, Repr

/-- The integers from lo (inclusive) to hi (exclusive). -/
def intRange (lo hi : ℤ) : List ℤ :=
  (List.range (hi - lo).toNat).map (fun (i : ℕ) => lo + (i : ℤ))

/-- One non-choking iteration of the NACK fill loop: append the gap before
the saved sequence number q and move past q. -/
def qackStep (a : QAcc) (q : ℤ) : QAcc :=
  { a with nacks := a.nacks ++ intRange a.nextSeqn q,
           numNacks := a.numNacks + (intRange a.nextSeqn q).length,
           nextSeqn := q + 1 }

/-- The NACK fill loop of Stream::SendQuickAck (lines 750-767): for each saved
packet list the gap of missing sequence numbers before it; if the NACK count
would reach 256, rewrite ackThrough to the last covered sequence number and
choke. -/
def qackLoop : List ℤ → QAcc → QAcc
  | [], a => a
  | q :: rest, a =>
    if 256 ≤ (a.numNacks : ℤ) + (q - a.nextSeqn) then
      { a with ackThrough := a.nextSeqn - 1, choking := true }
    else qackLoop rest (qackStep a q)

/-- The fields of the pure-ACK packet built by Stream::SendQuickAck. -/
structure QAck where
  sendStreamID : ℕ
  recvStreamID : ℕ
  ackThrough : ℤ
  nacks : List ℤ
  numNacks : ℕ
  choking : Bool
  flags : ℕ
  delayOption : Option ℕ
  deriving DecidableEq, Repr

/-- The sequence numbers of the saved (out of order) packets, as the int32
values the SendQuickAck loop reads. -/
def savedSeqns (s : StreamState) : List ℤ :=
  s.savedPackets.map (fun p => toInt32 (GetSeqn p))

/-- Stream::SendQuickAck (lines 718-795), at the level of field values: which
ackThrough, NACK list, flags and option value the code stores into the packet.
Returns none on the no-packets-received early return. -/
def SendQuickAck (s : StreamState) : Option QAck :=
  let lastReceivedSeqn : ℤ :=
    match (savedSeqns s).getLast? with
    | some q => if s.lastReceivedSequenceNumber < q then q else s.lastReceivedSequenceNumber
    | none => s.lastReceivedSequenceNumber
  if lastReceivedSeqn < 0 then none
  else
    let a0 : QAcc :=
      { nacks := [], numNacks := 0, nextSeqn := s.lastReceivedSequenceNumber + 1,
        choking := false, ackThrough := lastReceivedSeqn }
    let a :=
      if s.lastReceivedSequenceNumber < lastReceivedSeqn then qackLoop (savedSeqns s) a0
      else a0
    some { sendStreamID := s.sendStreamID, recvStreamID := s.recvStreamID,
           ackThrough := a.ackThrough, nacks := a.nacks, numNacks := a.numNacks,
           choking := a.choking,
           flags := if a.choking then PACKET_FLAG_DELAY_REQUESTED else 0,
           delayOption := if a.choking then some DELAY_CHOKING else none }

/-- Stream::SendQuickAck at the byte level, following the write sequence of
lines 732-791: htobe32buf for the stream ids, ackThrough and the NACK entries;
htobuf32 for the zero sequence number; htobuf16 (host order) for the flags
field, the options-size field and the DELAY_CHOKING option value. -/
def SendQuickAckBytes (hostLE : Bool) (s : StreamState) : Option Buf :=
  match SendQuickAck s with
  | none => none
  | some a =>
    some (be32 s.sendStreamID ++ be32 s.recvStreamID ++ host32 hostLE 0 ++
          be32 (toUInt32 a.ackThrough) ++ [a.numNacks % 256] ++
          (a.nacks.map (fun z => be32 (toUInt32 z))).flatten ++ [0] ++
          host16 hostLE a.flags ++
          (if a.choking then host16 hostLE 2 ++ host16 hostLE DELAY_CHOKING
           else host16 hostLE 0))

/-! ### Retransmission (lines 1086-1172) -/

/-- The overdue-collection loop of Stream::ResendPacket (lines 1111-1125):
find the first sent packet past its RTO, mark it resent when within two RTOs,
stamp the current time, and stop after one. -/
def collectOverdue (ts : ℕ) (rto : ℤ) : List SentPacketE → List SentPacketE × Option ℕ
  | [] => ([], none)
  | q :: rest =>
    if (q.sendTime : ℤ) + rto ≤ (ts : ℤ) then
      ({ q with resent := decide ((ts : ℤ) < (q.sendTime : ℤ) + rto * 2),
                sendTime := ts } :: rest, some q.seqn)
    else
      let r := collectOverdue ts rto rest
      (q :: r.1, r.2)

/-- The congestion-control / recovery step of Stream::ResendPacket once an
overdue packet was collected at send time, after the attempt counter update
(lines 1132-1164): the single fast-retransmit case halves the window once;
otherwise a timeout resend resets RTO and the window, re-paces, invalidates
the shared routing path and alternates tunnel / lease selection by the parity
of the attempt count. -/
def resendRecovery (env : Env) (s1 : StreamState) : StreamState × List Effect :=
  if s1.numResendAttempts = 1 ∧ s1.rto ≠ INITIAL_RTO then
    -- loss-based CC (lines 1132-1142)
    if s1.isWinDropped = false then
      let sB := { s1 with windowSize := Int.tdiv s1.windowSize 2, isWinDropped := true }
      let sC :=
        if sB.windowSize < MIN_WINDOW_SIZE then { sB with windowSize := MIN_WINDOW_SIZE }
        else sB
      (UpdatePacingTime sC, [])
    else (s1, [])
  else if s1.isTimeOutResend then
    -- timeout resend (lines 1143-1164)
    let sA := { s1 with isTimeOutResend := false, rto := INITIAL_RTO,
                        windowSize := INITIAL_WINDOW_SIZE, isWinDropped := true }
    let sB := UpdatePacingTime sA
    let eB := if sB.routingSession then [Effect.resetRoutingPath] else []
    if sB.numResendAttempts % 2 = 1 then
      ({ sB with currentOutboundTunnel := env.nextTunnel sB.currentOutboundTunnel },
       eB ++ [Effect.pickNextOutboundTunnel])
    else
      ({ sB with currentRemoteLease := env.newLease sB.currentRemoteLease },
       eB ++ [Effect.updateLease false])
  else (s1, [])

/-- The part of Stream::ResendPacket after the overdue collection (lines
1127-1170): with a packet collected at send time, update the attempt counter,
run the recovery step, send and pace; otherwise fall through to SendBuffer. -/
def resendAfterCollect (env : Env) (ts : ℕ) (found : Option ℕ) (s : StreamState) :
    StreamState × List Effect :=
  if found.isSome ∧ s.isSendTime then
    let s1 :=
      if s.isNAcked then { s with numResendAttempts := 1 }
      else if s.isTimeOutResend then
        { s with numResendAttempts := s.numResendAttempts + 1 }
      else s
    let st := resendRecovery env s1
    let s3 := { st.1 with isSendTime := false }
    let s4 := if s3.isNAcked then ScheduleSend s3 else s3
    (s4, st.2 ++ [Effect.sendPacketsOut found.toList])
  else SendBuffer env ts s

/-- Stream::ResendPacket (lines 1099-1172). UpdateCurrentRemoteLease (lines
1214-1293) picks the new lease from the owner's lease-set data; it is
abstracted by the newLease oracle plus the updateLease effect. -/
def ResendPacket (env : Env) (ts : ℕ) (s0 : StreamState) : StreamState × List Effect :=
  if MAX_NUM_RESEND_ATTEMPTS ≤ s0.numResendAttempts then
    Close { s0 with status := eStreamStatusReset }
  else
  let co := collectOverdue ts s0.rto s0.sentPackets
  let m := resendAfterCollect env ts co.2 { s0 with sentPackets := co.1 }
  let sZ := if m.1.isNAcked = false then ScheduleResend m.1 else m.1
  (sZ, m.2)

/-- Stream::HandleResendTimer (lines 1086-1097): on expiry set send time, cap
RTO at INITIAL_RTO, disable the fast-retransmit send timer, flag the timeout
resend, clear isNAcked and resend one packet. -/
def HandleResendTimer (env : Env) (ts : ℕ) (s : StreamState) : StreamState × List Effect :=
  let s1 := { s with isSendTime := true,
                     rto := if INITIAL_RTO < s.rto then INITIAL_RTO else s.rto,
                     sendTimerArmed := false,
                     isTimeOutResend := true,
                     isNAcked := false }
  ResendPacket env ts s1

/-- Stream::HandleSendTimer (lines 1051-1071). -/
def HandleSendTimer (env : Env) (ts : ℕ) (s0 : StreamState) : StreamState × List Effect :=
  let s := { s0 with isSendTime := true }
  if s.isNAcked then ResendPacket env ts s
  else if s.isWinDropped = false ∧ (s.sentPackets.length : ℤ) = s.windowSize then
    let sA := { s with windowSize := Int.tdiv s.windowSize 2, isWinDropped := true }
    let sB := if sA.windowSize < MIN_WINDOW_SIZE then { sA with windowSize := MIN_WINDOW_SIZE } else sA
    (UpdatePacingTime sB, [])
  else if (s.sentPackets.length : ℤ) < s.windowSize then SendBuffer env ts s
  else (ScheduleSend s, [])

/-- Stream::HandleAckSendTimer (lines 1185-1212). -/
def HandleAckSendTimer (env : Env) (ts : ℕ) (s : StreamState) : StreamState × List Effect :=
  if s.isAckSendScheduled then
    if s.lastReceivedSequenceNumber < 0 then
      Close { s with status := eStreamStatusReset }
    else
      let q :=
        if s.status = eStreamStatusOpen then
          let sA :=
            if s.routingSession ∧ env.leaseSetNonConfirmed ∧
               env.leaseSetSubmissionTime + LEASESET_CONFIRMATION_TIMEOUT < ts then
              { s with currentOutboundTunnel := none, currentRemoteLease := none }
            else s
          (sA, [Effect.quickAck])
        else (s, [])
      ({ q.1 with isAckSendScheduled := false }, q.2)
  else (s, [])

/-! ### Reception entry point (lines 143-252) -/

/-- Ordered insert into m_SavedPackets (by sequence number, set semantics):
none when a packet with the same sequence number is already saved. -/
def insertSaved (p : Packet) : List Packet → Option (List Packet)
  | [] => some [p]
  | q :: rest =>
    if GetSeqn p < GetSeqn q then some (p :: q :: rest)
    else if GetSeqn p = GetSeqn q then none
    else
      match insertSaved p rest with
      | some rest1 => some (q :: rest1)
      | none => none

/-- Stream::SavePacket (lines 248-252): insert into the saved set, deleting
the packet when a duplicate sequence number is present. -/
def SavePacket (s : StreamState) (p : Packet) : StreamState × List Effect :=
  match insertSaved p s.savedPackets with
  | some l => ({ s with savedPackets := l }, [])
  | none => (s, [Effect.deletePacket])

/-- The stored-message drain loop of Stream::HandleNextPacket (lines 183-195):
pop saved packets while they continue the sequence, processing each; stop on a
gap or when the stream terminates. -/
def drainSaved (env : Env) : List Packet → StreamState → StreamState × List Effect
  | [], s => (s, [])
  | q :: rest, s =>
    if GetSeqn q = toUInt32 (s.lastReceivedSequenceNumber + 1) then
      let r := ProcessPacket env { s with savedPackets := rest } q
      if r.1.status = eStreamStatusTerminated then (r.1, r.2)
      else
        let r2 := drainSaved env rest r.1
        (r2.1, r.2 ++ r2.2)
    else (s, [])

/-- The dispatch of Stream::HandleNextPacket after the ACK processing (lines
170-245), on the state the ACK step produced: plain ack, next in sequence,
duplicate, or missing messages. -/
def handleNextDispatch (env : Env) (ts : ℕ) (s2 : StreamState) (p : Packet) :
    StreamState × List Effect :=
  let receivedSeqn := toInt32 (GetSeqn p)
  if receivedSeqn = 0 ∧ GetFlags p = 0 then (s2, [Effect.deletePacket])
  else if receivedSeqn = s2.lastReceivedSequenceNumber + 1 then
    -- next in sequence (lines 176-210)
    let pp := ProcessPacket env s2 p
    if pp.1.status = eStreamStatusTerminated then (pp.1, pp.2)
    else
      let dr := drainSaved env pp.1.savedPackets pp.1
      if dr.1.status = eStreamStatusTerminated then (dr.1, pp.2 ++ dr.2)
      else if dr.1.status = eStreamStatusOpen then
        if dr.1.isAckSendScheduled = false then
          let ackTimeoutQ : ℚ := dr.1.rtt / 10
          let ackTimeout : ℤ :=
            if (dr.1.ackDelay : ℚ) < ackTimeoutQ then dr.1.ackDelay else truncQ ackTimeoutQ
          let sa := ScheduleAck ackTimeout dr.1
          (sa.1, pp.2 ++ dr.2 ++ sa.2)
        else (dr.1, pp.2 ++ dr.2)
      else if IsSYN p then
        let sb := SendBuffer env ts dr.1
        (sb.1, pp.2 ++ dr.2 ++ sb.2)
      else (dr.1, pp.2 ++ dr.2)
  else if receivedSeqn ≤ s2.lastReceivedSequenceNumber then
    -- duplicate (lines 213-225)
    let rotate := receivedSeqn ≤ s2.previousReceivedSequenceNumber ∨
                  receivedSeqn = s2.lastReceivedSequenceNumber
    let s3 :=
      if rotate then
        { s2 with currentOutboundTunnel := env.nextTunnel s2.currentOutboundTunnel,
                  currentRemoteLease := env.newLease s2.currentRemoteLease }
      else s2
    let e3 := if rotate then [Effect.pickNextOutboundTunnel, Effect.updateLease false] else []
    let s4 := { s3 with previousReceivedSequenceNumber := receivedSeqn }
    (s4, e3 ++ [Effect.quickAck, Effect.deletePacket])
  else
    -- missing messages (lines 227-244)
    let sp := SavePacket s2 p
    if 0 ≤ s2.lastReceivedSequenceNumber then
      if sp.1.isAckSendScheduled = false then
        let t0 : ℤ := MIN_SEND_ACK_TIMEOUT * (sp.1.savedPackets.length : ℤ)
        let t1 := if sp.1.ackDelay < t0 then sp.1.ackDelay else t0
        let sa := ScheduleAck t1 sp.1
        (sa.1, sp.2 ++ sa.2)
      else (sp.1, sp.2)
    else
      let sa := ScheduleAck SYN_TIMEOUT sp.1
      (sa.1, sp.2 ++ sa.2)

/-- Stream::HandleNextPacket (lines 143-246): the terminated guard, byte
accounting, sendStreamID adoption, the destination-mismatch guard on the
first incoming packet (lines 154-160), the ACK processing and the dispatch. -/
def HandleNextPacket (env : Env) (ts : ℕ) (s0 : StreamState) (p : Packet) :
    StreamState × List Effect :=
  if s0.status = eStreamStatusTerminated then (s0, [Effect.deletePacket])
  else
  let s := { s0 with numReceivedBytes := s0.numReceivedBytes + GetLength p }
  let adopt := decide (s.sendStreamID = 0)
  let s1 := if adopt then { s with sendStreamID := GetReceiveStreamID p } else s
  if adopt ∧ s1.remoteIdentity.isNone = true ∧ GetNACKCount p = 8 ∧
     GetNACKsBytes p 32 ≠ env.localIdentHash then
    (s1, [Effect.deletePacket])
  else
  let pa := if IsNoAck p = false then ProcessAck env ts s1 p else (s1, [])
  let r := handleNextDispatch env ts pa.1 p
  (r.1, pa.2 ++ r.2)

/-- The pong packet built by Stream::HandlePing (lines 402-411) from a ping
buffer: a zeroed 22-byte minimal header with the ping's first four bytes (its
sendStreamID) copied to offset 4 (receiveStreamID) and the big-endian ECHO
flag at offset 18, followed by the ping's payload bytes. -/
def pongFor (b : Buf) (payloadPos payloadLen : ℕ) : Buf :=
  writeBytes (writeBytes (List.replicate 22 0) 4 (b.take 4)) 18 (be16 PACKET_FLAG_ECHO) ++
    slice b payloadPos payloadLen

/-- Stream::HandlePing (lines 396-416): verify the options; with a remote
identity present, build a pong whose minimal 22-byte header has the ping's
sendStreamID copied into receiveStreamID and the ECHO flag, followed by the
ping's payload, and send it. -/
def HandlePing (env : Env) (s : StreamState) (p : Packet) : StreamState × List Effect :=
  let flags := GetFlags p
  let r := ProcessOptions env s flags p
  if r.ok ∧ r.s.remoteIdentity.isSome then
    let payloadPos := GetPayloadPos p
    let payloadLen : ℕ := if payloadPos < p.len then p.len - payloadPos else 0
    (r.s, r.effects ++ [Effect.pong (pongFor r.buf payloadPos payloadLen),
                        Effect.deletePacket])
  else (r.s, r.effects ++ [Effect.deletePacket])

/-! ### Constructors (lines 69-104) -/

/-- The common field initialisation of the two Stream constructors. RAND_bytes
on the 4-byte m_RecvStreamID is the rngStreamID oracle; m_MinPacingTime is
10^6 * STREAMING_MTU / configured outbound speed when configured. -/
def streamStateBase (env : Env) : StreamState :=
  { sendStreamID := 0, recvStreamID := env.rngStreamID, sequenceNumber := 0,
    tunnelsChangeSequenceNumber := 0, lastReceivedSequenceNumber := -1,
    previousReceivedSequenceNumber := -1, status := eStreamStatusNew,
    isAckSendScheduled := false, isNAcked := false, isSendTime := true,
    isWinDropped := true, isTimeOutResend := false,
    remoteLeaseSet := none, remoteIdentity := none, transientVerifier := none,
    rtt := INITIAL_RTT, prevRTT := INITIAL_RTT, prevRTTSample := 8000, jitter := 0,
    windowSize := INITIAL_WINDOW_SIZE, rto := INITIAL_RTO, ackDelay := env.ackDelay,
    minPacingTime :=
      if env.outboundSpeed ≠ 0 then
        Int.tdiv (1000000 * (STREAMING_MTU : ℤ)) (env.outboundSpeed : ℤ)
      else 0,
    pacingTime := INITIAL_PACING_TIME, numResendAttempts := 0, mtu := STREAMING_MTU,
    sentPackets := [], savedPackets := [], receiveQueue := [], sendBufferSize := 0,
    routingSession := false, currentOutboundTunnel := none, currentRemoteLease := none,
    ackTimerArmed := false, receiveTimerArmed := false, resendTimerArmed := false,
    sendTimerArmed := false, numReceivedBytes := 0, numSentBytes := 0 }

/-- The incoming-stream constructor Stream (service, local) (lines 89-104). -/
def StreamCtorIncoming (env : Env) : StreamState := streamStateBase env

/-- The outgoing-stream constructor Stream (service, local, remote, port)
(lines 69-87): additionally adopts the remote lease set and its identity. -/
def StreamCtorOutgoing (env : Env) (remote : LeaseSet) : StreamState :=
  { streamStateBase env with remoteLeaseSet := some remote,
                             remoteIdentity := some remote.identity }

/-! ### StreamingDestination (lines 1312-1469) -/

/-- The demultiplexer state: m_Streams keyed by local recvStreamID,
m_IncomingStreams keyed by remote sendStreamID (membership only),
m_LastStream cache. -/
structure DestState where
  streams : List (ℕ × StreamState)
  incomingStreams : List ℕ
  lastStream : Option ℕ

def lookupStream (l : List (ℕ × StreamState)) (rid : ℕ) : Option StreamState :=
  match l.find? (fun q => q.1 = rid) with
  | some q => some q.2
  | none => none

def updateStream (l : List (ℕ × StreamState)) (rid : ℕ) (st : StreamState) :
    List (ℕ × StreamState) :=
  l.map (fun q => if q.1 = rid then (rid, st) else q)

/-- StreamingDestination::HandleNextPacket (lines 1347-1469). The new-incoming
and buffered-follow-on branches (creation, SYN delivery, saved-packet flush,
accept backlog, expiry timers) are summarised by effects; the dispatch and
ping paths run the embedded stream operations. -/
def DestHandleNextPacket (env : Env) (ts : ℕ) (d : DestState) (p : Packet) :
    DestState × List Effect :=
  let sid := GetSendStreamID p
  if sid ≠ 0 then
    let cacheHit :=
      match d.lastStream with
      | some rid => decide (rid = sid)
      | none => false
    let last1 : Option ℕ :=
      if cacheHit then d.lastStream
      else if (lookupStream d.streams sid).isSome then some sid else none
    match last1 with
    | some rid =>
      match lookupStream d.streams rid with
      | some st =>
        let r := HandleNextPacket env ts st p
        ({ d with lastStream := some rid, streams := updateStream d.streams rid r.1 },
         Effect.dispatchTo rid :: r.2)
      | none => ({ d with lastStream := none }, [Effect.deletePacket])
    | none =>
      if IsEcho p ∧ env.answerPings then
        -- ping to an unknown stream: ephemeral stream answers (lines 1362-1368)
        let fresh := StreamCtorIncoming env
        let r := HandlePing env fresh p
        ({ d with lastStream := none }, r.2)
      else ({ d with lastStream := none }, [Effect.deletePacket])
  else
    if IsEcho p then
      -- pong received: drop (lines 1377-1383)
      (d, [Effect.deletePacket])
    else if IsSYN p ∧ GetSeqn p = 0 then
      -- new incoming stream (lines 1384-1432)
      let rid := GetReceiveStreamID p
      if rid ∈ d.incomingStreams then
        (d, [Effect.resetRoutingPathOf rid, Effect.deletePacket])
      else
        ({ d with incomingStreams := rid :: d.incomingStreams },
         [Effect.newIncomingStream rid])
    else
      -- follow on packet without SYN (lines 1433-1467)
      let rid := GetReceiveStreamID p
      if rid ∈ d.incomingStreams then (d, [Effect.dispatchTo rid])
      else (d, [Effect.bufferFollowOn rid])

/-! ### EDDSA25519Verifier (Signature.cpp, OPENSSL_EDDSA branch, lines 17-47) -/

/-- OpenSSL oracles: EVP_PKEY_new_raw_public_key (which may return null) and
EVP_DigestVerify on an imported key. -/
structure EVPEnv where
  importRawKey : Buf → Option ℕ
  digestVerify : ℕ → Buf → Buf → ℕ → Bool

/-- The verifier state: m_Pkey, null until a raw public key import succeeds. -/
structure EDDSA25519Verifier where
  pkey : Option ℕ

/-- EDDSA25519Verifier::EDDSA25519Verifier (lines 18-21): m_Pkey starts null. -/
def EDDSA25519VerifierNew : EDDSA25519Verifier := { pkey := none }

/-- EDDSA25519Verifier::SetPublicKey (lines 28-32): m_Pkey becomes whatever
the raw 32-byte key import returns (possibly null). -/
def SetPublicKey (env : EVPEnv) (_v : EDDSA25519Verifier) (signingKey : Buf) :
    EDDSA25519Verifier :=
  { pkey := env.importRawKey (signingKey.take 32) }

/-- EDDSA25519Verifier::Verify (lines 34-47): with a key, defer to
EVP_DigestVerify; without one, log and return false. -/
def Verify (env : EVPEnv) (v : EDDSA25519Verifier) (buf : Buf) (len : ℕ)
    (signature : Buf) : Bool :=
  match v.pkey with
  | some k => env.digestVerify k signature buf len
  | none => false

/-! ### Spec-side definitions and measures used by the claims -/

/-- The pacing invariant as the spec states it:
pacingTime = max (minPacingTime, round (RTT * 1000 / windowSize)). -/
def pacingInv (s : StreamState) : Prop :=
  s.pacingTime = max s.minPacingTime (croundQ (s.rtt * 1000 / (s.windowSize : ℚ)))

instance (s : StreamState) : Decidable (pacingInv s) := by
  unfold pacingInv; infer_instance

/-- Rank of a status along the chain
New, Open, Closing, Closed, Reset, Terminated of the spec; an operation that
advances along the chain never decreases the rank. -/
def statusRank : StreamStatus → ℕ
  | eStreamStatusNew => 0
  | eStreamStatusOpen => 1
  | eStreamStatusClosing => 2
  | eStreamStatusClosed => 3
  | eStreamStatusReset => 4
  | eStreamStatusTerminated => 5

/-- Total number of NACK entries the quick-ACK loop would need: the sum of the
gaps before each saved sequence number. -/
def gapsum (n : ℤ) : List ℤ → ℕ
  | [] => 0
  | q :: rest => (q - n).toNat + gapsum (q + 1) rest

/-- Spec-side definition, following the spec wording of SendQuickAck: the
missing sequence numbers between lastReceivedSequenceNumber + 1 and the highest
saved sequence number (those in the range that are not saved). -/
def missingSeqns (last : ℤ) (saved : List ℤ) : List ℤ :=
  match saved.getLast? with
  | some hi => (intRange (last + 1) (hi + 1)).filter (fun m => decide (m ∉ saved))
  | none => []

/-- The missing sequence numbers from n on, gap by gap: for each saved
sequence number the gap before it. On a sorted saved list this coincides with
missingSeqns (proved below) and mirrors the shape of the quick-ACK loop. -/
def missList (n : ℤ) : List ℤ → List ℤ
  | [] => []
  | q :: rest => intRange n q ++ missList (q + 1) rest

/-! ### Concrete fixtures used by witnesses and counterexamples -/

/-- An identity whose verifier rejects everything. -/
def idFalseW : Identity :=
  { isRSA := false, fullLen := 100, signatureLen := 8,
    verify := fun _ _ _ => false, identHash := [] }

/-- An identity (3 bytes long) whose verifier accepts everything. -/
def idOkW : Identity :=
  { isRSA := false, fullLen := 3, signatureLen := 0,
    verify := fun _ _ _ => true, identHash := [] }

/-- A concrete environment for witnesses. -/
def envW : Env :=
  { parseIdentity := fun _ => idFalseW,
    processOfflineSignature := fun _ _ => none,
    nextTunnel := fun _ => some 1,
    newLease := fun _ => some 1,
    findLeaseSet := none,
    isRatchets := false,
    rngStreamID := 77,
    localIdentHash := [],
    outboundSpeed := 0,
    ackDelay := 200,
    leaseSetNonConfirmed := false,
    leaseSetSubmissionTime := 0,
    answerPings := true }

/-- envW with identity parsing returning the accepting identity. -/
def envPingW : Env := { envW with parseIdentity := fun _ => idOkW }

/-- envW with an RNG that produces the all-zero stream id. -/
def envZeroRngW : Env := { envW with rngStreamID := 0 }

/-- An OpenSSL environment whose raw key import always fails. -/
def evpEnvNoneW : EVPEnv :=
  { importRawKey := fun _ => none, digestVerify := fun _ _ _ _ => true }

/-- A lease set fixture. -/
def lsW : LeaseSet := { identity := idFalseW, transientVerifier := none }

/-- A saved packet with sequence number 300 (header-only buffer). -/
def pk300W : Packet := { buf := List.replicate 8 0 ++ be32 300, len := 12 }

/-- Saved packets with sequence numbers 3 and 5. -/
def pk3W : Packet := { buf := List.replicate 8 0 ++ be32 3, len := 12 }

def pk5W : Packet := { buf := List.replicate 8 0 ++ be32 5, len := 12 }

/-- Receiver state with lastReceived = 0 and a saved packet at 300: the gap
1..299 needs 299 NACK entries, which exceeds 255. -/
def sChokeW : StreamState :=
  { streamStateBase envW with
      sendStreamID := 5, recvStreamID := 6,
      lastReceivedSequenceNumber := 0, savedPackets := [pk300W] }

/-- Receiver state with lastReceived = 0 and saved packets 3 and 5: NACKs
1, 2, 4 fit easily. -/
def sNackW : StreamState :=
  { streamStateBase envW with
      sendStreamID := 5, recvStreamID := 6,
      lastReceivedSequenceNumber := 0, savedPackets := [pk3W, pk5W] }

/-- The byte output of the choking quick-ACK of sChokeW on a little-endian
host: flags bytes 40 00, options-size bytes 02 00, delay bytes 60 EA. -/
def chokeBytesW : Buf :=
  [0, 0, 0, 5, 0, 0, 0, 6, 0, 0, 0, 0, 0, 0, 0, 0, 0, 0, 64, 0, 2, 0, 96, 234]

/-- A pure-ACK packet with ackThrough = 7. -/
def pAckW : Packet :=
  { buf := List.replicate 12 0 ++ be32 7 ++ [0, 0] ++ be16 0 ++ be16 0, len := 22 }

/-- A sender state with sequenceNumber = 3 (below pAckW's ackThrough). -/
def sSeq3W : StreamState := { streamStateBase envW with sequenceNumber := 3 }

/-- An open stream with a known (rejecting) remote identity and one
unacknowledged sent packet. -/
def sOpenW : StreamState :=
  { streamStateBase envW with
      status := eStreamStatusOpen,
      remoteIdentity := some idFalseW,
      sentPackets := [{ seqn := 0, sendTime := 0 }] }

/-- A packet carrying only SIGNATURE_INCLUDED with an 8-byte signature that
idFalseW rejects; no payload. -/
def pSigFailW : Packet :=
  { buf := be32 0 ++ be32 0 ++ be32 1 ++ be32 0 ++ [0] ++ [0] ++
           be16 PACKET_FLAG_SIGNATURE_INCLUDED ++ be16 8 ++ [1, 2, 3, 4, 5, 6, 7, 8],
    len := 30 }

/-- A state satisfying the pacing invariant with windowSize 4. -/
def sPacingW : StreamState :=
  { streamStateBase envW with windowSize := 4, pacingTime := 2000000 }

/-- A packet whose DELAY_REQUESTED option asks for DELAY_CHOKING (60000 ms). -/
def pChokeReqW : Packet :=
  { buf := be32 0 ++ be32 0 ++ be32 1 ++ be32 0 ++ [0] ++ [0] ++
           be16 PACKET_FLAG_DELAY_REQUESTED ++ be16 2 ++ be16 DELAY_CHOKING,
    len := 24 }

/-- An open stream in timeout-resend condition: one overdue sent packet,
isTimeOutResend set, RTO still initial. -/
def sTimeoutW : StreamState :=
  { streamStateBase envW with
      status := eStreamStatusOpen,
      isTimeOutResend := true, isSendTime := true, routingSession := true,
      windowSize := 5, sentPackets := [{ seqn := 0, sendTime := 0 }] }

/-- A ping: ECHO and FROM_INCLUDED, sendStreamID 9, 3-byte identity option,
2-byte payload. -/
def pPingW : Packet :=
  { buf := be32 9 ++ be32 0 ++ be32 0 ++ be32 0 ++ [0] ++ [0] ++
           be16 (PACKET_FLAG_ECHO + PACKET_FLAG_FROM_INCLUDED) ++ be16 3 ++
           [10, 11, 12] ++ [200, 201],
    len := 27 }

/-- An ECHO packet with sendStreamID 0 (the destination treats it as a pong). -/
def pPongZeroW : Packet :=
  { buf := be32 0 ++ be32 9 ++ be32 0 ++ be32 0 ++ [0] ++ [0] ++
           be16 PACKET_FLAG_ECHO ++ be16 0,
    len := 22 }

/-- An empty destination. -/
def destEmptyW : DestState := { streams := [], incomingStreams := [], lastStream := none }

/-! ### Helper lemmas -/

theorem qfloor_eq_floor (q : ℚ) : qfloor q = ⌊q⌋ := by
  rw [Rat.floor_def]
  unfold qfloor
  exact Int.fdiv_eq_ediv _ (Int.ofNat_nonneg q.den)

theorem croundQ_nonneg (q : ℚ) (h : 0 ≤ q) : 0 ≤ croundQ q := by
  unfold croundQ
  rw [if_pos h, qfloor_eq_floor]
  exact Int.floor_nonneg.mpr (by linarith)

theorem floor_half_eq_zero : ⌊(1/2 : ℚ)⌋ = 0 := by
  rw [Int.floor_eq_zero_iff]
  constructor <;> norm_num

theorem croundQ_intCast (z : ℤ) : croundQ ((z : ℤ) : ℚ) = z := by
  unfold croundQ
  split
  · rw [qfloor_eq_floor, add_comm, Int.floor_add_int, floor_half_eq_zero, zero_add]
  · rw [qfloor_eq_floor]
    have h : (-(z : ℚ) + 1/2) = 1/2 + ((-z : ℤ) : ℚ) := by push_cast; ring
    rw [h, Int.floor_add_int, floor_half_eq_zero, zero_add, neg_neg]

theorem UpdatePacingTime_pacingTime (s : StreamState)
    (h1 : 0 ≤ s.rtt) (h2 : 0 ≤ s.windowSize) :
    (UpdatePacingTime s).pacingTime =
      max s.minPacingTime (croundQ (s.rtt * 1000 / (s.windowSize : ℚ))) := by
  have hp0 : 0 ≤ croundQ (s.rtt * 1000 / (s.windowSize : ℚ)) := by
    apply croundQ_nonneg
    apply div_nonneg (by linarith) (by exact_mod_cast h2)
  unfold UpdatePacingTime
  split
  · next hcond => dsimp only; omega
  · next hcond => dsimp only; omega

@[simp] theorem UpdatePacingTime_windowSize (s : StreamState) :
    (UpdatePacingTime s).windowSize = s.windowSize := by
  unfold UpdatePacingTime; split <;> rfl

@[simp] theorem UpdatePacingTime_rtt (s : StreamState) :
    (UpdatePacingTime s).rtt = s.rtt := by
  unfold UpdatePacingTime; split <;> rfl

@[simp] theorem UpdatePacingTime_minPacingTime (s : StreamState) :
    (UpdatePacingTime s).minPacingTime = s.minPacingTime := by
  unfold UpdatePacingTime; split <;> rfl

@[simp] theorem UpdatePacingTime_rto (s : StreamState) :
    (UpdatePacingTime s).rto = s.rto := by
  unfold UpdatePacingTime; split <;> rfl

@[simp] theorem UpdatePacingTime_isWinDropped (s : StreamState) :
    (UpdatePacingTime s).isWinDropped = s.isWinDropped := by
  unfold UpdatePacingTime; split <;> rfl

@[simp] theorem UpdatePacingTime_isNAcked (s : StreamState) :
    (UpdatePacingTime s).isNAcked = s.isNAcked := by
  unfold UpdatePacingTime; split <;> rfl

@[simp] theorem UpdatePacingTime_isTimeOutResend (s : StreamState) :
    (UpdatePacingTime s).isTimeOutResend = s.isTimeOutResend := by
  unfold UpdatePacingTime; split <;> rfl

@[simp] theorem UpdatePacingTime_routingSession (s : StreamState) :
    (UpdatePacingTime s).routingSession = s.routingSession := by
  unfold UpdatePacingTime; split <;> rfl

@[simp] theorem UpdatePacingTime_numResendAttempts (s : StreamState) :
    (UpdatePacingTime s).numResendAttempts = s.numResendAttempts := by
  unfold UpdatePacingTime; split <;> rfl

@[simp] theorem UpdatePacingTime_status (s : StreamState) :
    (UpdatePacingTime s).status = s.status := by
  unfold UpdatePacingTime; split <;> rfl

@[simp] theorem UpdatePacingTime_sendStreamID (s : StreamState) :
    (UpdatePacingTime s).sendStreamID = s.sendStreamID := by
  unfold UpdatePacingTime; split <;> rfl

@[simp] theorem ScheduleSend_windowSize (s : StreamState) :
    (ScheduleSend s).windowSize = s.windowSize := by
  unfold ScheduleSend; split <;> rfl

@[simp] theorem ScheduleSend_rto (s : StreamState) :
    (ScheduleSend s).rto = s.rto := by
  unfold ScheduleSend; split <;> rfl

@[simp] theorem ScheduleSend_isWinDropped (s : StreamState) :
    (ScheduleSend s).isWinDropped = s.isWinDropped := by
  unfold ScheduleSend; split <;> rfl

@[simp] theorem ScheduleSend_pacingTime (s : StreamState) :
    (ScheduleSend s).pacingTime = s.pacingTime := by
  unfold ScheduleSend; split <;> rfl

@[simp] theorem ScheduleSend_numResendAttempts (s : StreamState) :
    (ScheduleSend s).numResendAttempts = s.numResendAttempts := by
  unfold ScheduleSend; split <;> rfl

@[simp] theorem ScheduleSend_status (s : StreamState) :
    (ScheduleSend s).status = s.status := by
  unfold ScheduleSend; split <;> rfl

@[simp] theorem ScheduleSend_sendStreamID (s : StreamState) :
    (ScheduleSend s).sendStreamID = s.sendStreamID := by
  unfold ScheduleSend; split <;> rfl

@[simp] theorem ScheduleSend_isNAcked (s : StreamState) :
    (ScheduleSend s).isNAcked = s.isNAcked := by
  unfold ScheduleSend; split <;> rfl

@[simp] theorem ScheduleResend_windowSize (s : StreamState) :
    (ScheduleResend s).windowSize = s.windowSize := by
  unfold ScheduleResend; split <;> rfl

@[simp] theorem ScheduleResend_isWinDropped (s : StreamState) :
    (ScheduleResend s).isWinDropped = s.isWinDropped := by
  unfold ScheduleResend; split <;> rfl

@[simp] theorem ScheduleResend_pacingTime (s : StreamState) :
    (ScheduleResend s).pacingTime = s.pacingTime := by
  unfold ScheduleResend; split <;> rfl

@[simp] theorem ScheduleResend_numResendAttempts (s : StreamState) :
    (ScheduleResend s).numResendAttempts = s.numResendAttempts := by
  unfold ScheduleResend; split <;> rfl

@[simp] theorem ScheduleResend_status (s : StreamState) :
    (ScheduleResend s).status = s.status := by
  unfold ScheduleResend; split <;> rfl

@[simp] theorem ScheduleResend_sendStreamID (s : StreamState) :
    (ScheduleResend s).sendStreamID = s.sendStreamID := by
  unfold ScheduleResend; split <;> rfl

@[simp] theorem ScheduleResend_isNAcked (s : StreamState) :
    (ScheduleResend s).isNAcked = s.isNAcked := by
  unfold ScheduleResend; split <;> rfl

theorem ScheduleResend_rto_of_pos (s : StreamState) (h : 0 < s.rto) :
    (ScheduleResend s).rto = s.rto := by
  unfold ScheduleResend
  split
  · dsimp only; rw [if_neg (by omega)]
  · rfl

/-- Status discipline of one operation: the rank along the spec's chain never
decreases, and the transient Reset status is never left behind. -/
def RankOK (s s' : StreamState) : Prop :=
  statusRank s.status ≤ statusRank s'.status ∧
  (s.status ≠ eStreamStatusReset → s'.status ≠ eStreamStatusReset)

theorem RankOK.rfl' (s s' : StreamState) (h : s'.status = s.status) : RankOK s s' := by
  constructor
  · rw [h]
  · intro hne; rw [h]; exact hne

theorem RankOK.trans {a b c : StreamState} (h1 : RankOK a b) (h2 : RankOK b c) :
    RankOK a c :=
  ⟨le_trans h1.1 h2.1, fun h => h2.2 (h1.2 h)⟩

theorem statusRank_le_terminated (st : StreamStatus) :
    statusRank st ≤ statusRank eStreamStatusTerminated := by
  cases st <;> simp [statusRank]

theorem Terminate_rankOK (s : StreamState) (b : Bool) : RankOK s (Terminate s b).1 :=
  ⟨statusRank_le_terminated _, fun _ => by simp [Terminate]⟩

theorem Terminate_sid (s : StreamState) (b : Bool) :
    (Terminate s b).1.sendStreamID = s.sendStreamID := rfl

theorem SendClose_status (s : StreamState) : (SendClose s).1.status = s.status := rfl

theorem SendClose_sid (s : StreamState) : (SendClose s).1.sendStreamID = s.sendStreamID := rfl

theorem CloseCaseClosing_status (s : StreamState) :
    (CloseCaseClosing s).1.status = eStreamStatusClosed ∨
    (CloseCaseClosing s).1.status = s.status := by
  unfold CloseCaseClosing
  split
  · left; rfl
  · right; rfl

theorem CloseCaseClosing_sid (s : StreamState) :
    (CloseCaseClosing s).1.sendStreamID = s.sendStreamID := by
  unfold CloseCaseClosing
  split <;> rfl

theorem Close_rankOK (s : StreamState) : RankOK s (Close s).1 := by
  unfold Close
  cases hs : s.status
  all_goals dsimp only
  case eStreamStatusNew => exact RankOK.rfl' _ _ (by rw [hs])
  case eStreamStatusOpen =>
    rcases CloseCaseClosing_status { s with status := eStreamStatusClosing } with h | h
    · exact ⟨by rw [hs, h]; decide, fun _ => by rw [h]; decide⟩
    · have h2 : (CloseCaseClosing { s with status := eStreamStatusClosing }).1.status =
          eStreamStatusClosing := by rw [h]
      exact ⟨by rw [hs, h2]; decide, fun _ => by rw [h2]; decide⟩
  case eStreamStatusReset =>
    exact ⟨by rw [hs]; exact statusRank_le_terminated _, fun _ => by simp [Terminate]⟩
  case eStreamStatusClosing =>
    rcases CloseCaseClosing_status s with h | h
    · exact ⟨by rw [hs, h]; decide, fun _ => by rw [h]; decide⟩
    · exact ⟨by rw [hs, h, hs], fun _ => by rw [h, hs]; decide⟩
  case eStreamStatusClosed =>
    exact ⟨by rw [hs]; exact statusRank_le_terminated _, fun _ => by simp [Terminate]⟩
  case eStreamStatusTerminated =>
    exact RankOK.rfl' _ _ (by rw [hs])

theorem Close_ne_reset (s : StreamState) : (Close s).1.status ≠ eStreamStatusReset := by
  unfold Close
  cases hs : s.status
  all_goals dsimp only
  case eStreamStatusNew => rw [hs]; decide
  case eStreamStatusOpen =>
    rcases CloseCaseClosing_status { s with status := eStreamStatusClosing } with h | h
    · rw [h]; decide
    · have h2 : (CloseCaseClosing { s with status := eStreamStatusClosing }).1.status =
          eStreamStatusClosing := by rw [h]
      rw [h2]; decide
  case eStreamStatusReset => simp [Terminate]
  case eStreamStatusClosing =>
    rcases CloseCaseClosing_status s with h | h
    · rw [h]; decide
    · rw [h, hs]; decide
  case eStreamStatusClosed => simp [Terminate]
  case eStreamStatusTerminated => rw [hs]; decide

theorem Close_sid (s : StreamState) : (Close s).1.sendStreamID = s.sendStreamID := by
  unfold Close
  cases s.status
  all_goals dsimp only
  case eStreamStatusOpen => rw [CloseCaseClosing_sid]
  case eStreamStatusClosing => rw [CloseCaseClosing_sid]
  all_goals rfl

theorem RankOK_of_terminated (s s' : StreamState)
    (h : s'.status = eStreamStatusTerminated) : RankOK s s' :=
  ⟨h ▸ statusRank_le_terminated _, fun _ => by rw [h]; decide⟩

theorem RankOK_of_eqs (s s' : StreamState) (a b : StreamStatus)
    (h1 : s.status = a) (h2 : s'.status = b) (hle : statusRank a ≤ statusRank b)
    (hnr : b ≠ eStreamStatusReset) : RankOK s s' :=
  ⟨by rw [h1, h2]; exact hle, fun _ => by rw [h2]; exact hnr⟩

theorem Close_on_reset (s' : StreamState) (h : s'.status = eStreamStatusReset) :
    (Close s').1.status = eStreamStatusTerminated := by
  unfold Close
  rw [h]
  rfl

theorem ScheduleAck_status (t : ℤ) (s : StreamState) :
    (ScheduleAck t s).1.status = s.status := rfl

theorem ScheduleAck_sid (t : ℤ) (s : StreamState) :
    (ScheduleAck t s).1.sendStreamID = s.sendStreamID := rfl

theorem SavePacket_status (s : StreamState) (p : Packet) :
    (SavePacket s p).1.status = s.status := by
  unfold SavePacket; split <;> rfl

theorem SavePacket_sid (s : StreamState) (p : Packet) :
    (SavePacket s p).1.sendStreamID = s.sendStreamID := by
  unfold SavePacket; split <;> rfl

theorem processOptionsDelay_status (s0 : StreamState) (flags : ℕ) (p : Packet)
    (optStart : ℕ) : (processOptionsDelay s0 flags p optStart).status = s0.status := by
  unfold processOptionsDelay
  dsimp only
  repeat' split
  all_goals rfl

theorem processOptionsDelay_sid (s0 : StreamState) (flags : ℕ) (p : Packet)
    (optStart : ℕ) :
    (processOptionsDelay s0 flags p optStart).sendStreamID = s0.sendStreamID := by
  unfold processOptionsDelay
  dsimp only
  repeat' split
  all_goals rfl

theorem processOptionsFrom_status (env : Env) (s1 : StreamState) (flags : ℕ)
    (p : Packet) (pos1 optionSize : ℕ) :
    (processOptionsFrom env s1 flags p pos1 optionSize).status = s1.status := by
  unfold processOptionsFrom
  dsimp only
  repeat' split
  all_goals rfl

theorem processOptionsFrom_sid (env : Env) (s1 : StreamState) (flags : ℕ)
    (p : Packet) (pos1 optionSize : ℕ) :
    (processOptionsFrom env s1 flags p pos1 optionSize).sendStreamID = s1.sendStreamID := by
  unfold processOptionsFrom
  dsimp only
  repeat' split
  all_goals rfl

theorem processOptionsOffline_some (env : Env) (s2 : StreamState) (flags : ℕ)
    (p : Packet) (optStart optionSize pos3 : ℕ) (s4 : StreamState) (pos4 : ℕ)
    (h : processOptionsOffline env s2 flags p optStart optionSize pos3 = some (s4, pos4)) :
    s4.status = s2.status ∧ s4.sendStreamID = s2.sendStreamID := by
  unfold processOptionsOffline at h
  dsimp only at h
  repeat' split at h
  all_goals simp only [Option.some.injEq, Prod.mk.injEq, reduceCtorEq] at h
  all_goals obtain ⟨h1, -⟩ := h
  all_goals subst h1
  all_goals exact ⟨rfl, rfl⟩

theorem processOptionsSig_rankOK (env : Env) (s4 : StreamState) (flags : ℕ)
    (p : Packet) (pos4 : ℕ) : RankOK s4 (processOptionsSig env s4 flags p pos4).s := by
  unfold processOptionsSig
  dsimp only
  repeat' split
  all_goals first
    | exact RankOK.rfl' _ _ rfl
    | exact Close_rankOK _

theorem processOptionsSig_sid (env : Env) (s4 : StreamState) (flags : ℕ)
    (p : Packet) (pos4 : ℕ) :
    (processOptionsSig env s4 flags p pos4).s.sendStreamID = s4.sendStreamID := by
  unfold processOptionsSig
  dsimp only
  repeat' split
  all_goals first
    | rfl
    | exact Close_sid _

theorem processOptionsTail_rankOK (env : Env) (s2 : StreamState) (flags : ℕ)
    (p : Packet) (optStart optionSize pos3 : ℕ) :
    RankOK s2 (processOptionsTail env s2 flags p optStart optionSize pos3).s := by
  unfold processOptionsTail
  split
  · exact RankOK.rfl' _ _ rfl
  · split
    · exact RankOK.rfl' _ _ rfl
    · next s4 pos4 heq =>
      refine RankOK.trans (b := s4) ?_ (processOptionsSig_rankOK env s4 flags p pos4)
      exact RankOK.rfl' _ _ (processOptionsOffline_some _ _ _ _ _ _ _ _ _ heq).1

theorem processOptionsTail_sid (env : Env) (s2 : StreamState) (flags : ℕ)
    (p : Packet) (optStart optionSize pos3 : ℕ) :
    (processOptionsTail env s2 flags p optStart optionSize pos3).s.sendStreamID =
      s2.sendStreamID := by
  unfold processOptionsTail
  split
  · rfl
  · split
    · rfl
    · next s4 pos4 heq =>
      rw [processOptionsSig_sid, (processOptionsOffline_some _ _ _ _ _ _ _ _ _ heq).2]

theorem ProcessOptions_rankOK (env : Env) (s0 : StreamState) (flags : ℕ) (p : Packet) :
    RankOK s0 (ProcessOptions env s0 flags p).s := by
  unfold ProcessOptions
  dsimp only
  refine RankOK.trans ?_ (processOptionsTail_rankOK env _ flags p _ _ _)
  exact RankOK.rfl' _ _
    (by rw [processOptionsFrom_status, processOptionsDelay_status])

theorem ProcessOptions_sid (env : Env) (s0 : StreamState) (flags : ℕ) (p : Packet) :
    (ProcessOptions env s0 flags p).s.sendStreamID = s0.sendStreamID := by
  unfold ProcessOptions
  dsimp only
  rw [processOptionsTail_sid, processOptionsFrom_sid, processOptionsDelay_sid]

theorem ProcessPacket_rankOK (env : Env) (s : StreamState) (p : Packet) :
    RankOK s (ProcessPacket env s p).1 := by
  unfold ProcessPacket
  dsimp only
  split
  · exact (ProcessOptions_rankOK env s (GetFlags p) p).trans (Terminate_rankOK _ true)
  · repeat' split
    all_goals first
      | exact RankOK_of_terminated _ _ (Close_on_reset _ rfl)
      | exact RankOK_of_terminated _ _ rfl
      | exact (ProcessOptions_rankOK env s (GetFlags p) p).trans (RankOK.rfl' _ _ rfl)

theorem ProcessPacket_sid (env : Env) (s : StreamState) (p : Packet) :
    (ProcessPacket env s p).1.sendStreamID = s.sendStreamID := by
  unfold ProcessPacket
  dsimp only
  split
  · rw [Terminate_sid, ProcessOptions_sid]
  · repeat' split
    all_goals first
      | (rw [Close_sid]; exact ProcessOptions_sid env s _ p)
      | (rw [Terminate_sid]; exact ProcessOptions_sid env s _ p)
      | exact ProcessOptions_sid env s _ p

theorem sendBufferSyn_status (env : Env) (s : StreamState) :
    (sendBufferSyn env s).1.status = eStreamStatusOpen := by
  unfold sendBufferSyn
  dsimp only
  repeat' split
  all_goals rfl

theorem sendBufferSyn_sid (env : Env) (s : StreamState) :
    (sendBufferSyn env s).1.sendStreamID = s.sendStreamID := by
  unfold sendBufferSyn
  dsimp only
  repeat' split
  all_goals rfl

theorem sendBufferStep_rankOK (env : Env) (s : StreamState) :
    RankOK s (sendBufferStep env s).1 := by
  unfold sendBufferStep
  dsimp only
  split
  · next h =>
    exact RankOK_of_eqs _ _ eStreamStatusNew eStreamStatusOpen h
      (sendBufferSyn_status env s) (by decide) (by decide)
  · split
    · exact RankOK.rfl' _ _ rfl
    · exact RankOK.rfl' _ _ rfl

theorem sendBufferStep_sid (env : Env) (s : StreamState) :
    (sendBufferStep env s).1.sendStreamID = s.sendStreamID := by
  unfold sendBufferStep
  dsimp only
  split
  · exact sendBufferSyn_sid env s
  · split
    · rfl
    · rfl

theorem sendBufferFinish_status (ts : ℕ) (s1 : StreamState) (built : List ℕ) :
    (sendBufferFinish ts s1 built).1.status = s1.status := by
  unfold sendBufferFinish
  dsimp only
  repeat' split
  all_goals simp [SendClose_status]

theorem sendBufferFinish_sid (ts : ℕ) (s1 : StreamState) (built : List ℕ) :
    (sendBufferFinish ts s1 built).1.sendStreamID = s1.sendStreamID := by
  unfold sendBufferFinish
  dsimp only
  repeat' split
  all_goals simp [SendClose_sid]

theorem SendBuffer_rankOK (env : Env) (ts : ℕ) (s0 : StreamState) :
    RankOK s0 (SendBuffer env ts s0).1 := by
  unfold SendBuffer
  dsimp only
  split
  · exact RankOK.rfl' _ _ (ScheduleSend_status s0)
  · refine ((RankOK.rfl' _ _ (ScheduleSend_status s0)).trans
      (sendBufferStep_rankOK env (ScheduleSend s0))).trans ?_
    exact RankOK.rfl' _ _ (sendBufferFinish_status ts _ _)

theorem SendBuffer_sid (env : Env) (ts : ℕ) (s0 : StreamState) :
    (SendBuffer env ts s0).1.sendStreamID = s0.sendStreamID := by
  unfold SendBuffer
  dsimp only
  split
  · exact ScheduleSend_sendStreamID s0
  · rw [sendBufferFinish_sid, sendBufferStep_sid, ScheduleSend_sendStreamID]

theorem ackRttUpdate_status (acc : AckAcc) (s1 : StreamState) :
    (ackRttUpdate acc s1).status = s1.status := by
  unfold ackRttUpdate
  dsimp only
  repeat' split
  all_goals simp

theorem ackRttUpdate_sid (acc : AckAcc) (s1 : StreamState) :
    (ackRttUpdate acc s1).sendStreamID = s1.sendStreamID := by
  unfold ackRttUpdate
  dsimp only
  repeat' split
  all_goals simp

theorem processAckFlags_status (acc : AckAcc) (s2 : StreamState) :
    (processAckFlags acc s2).status = s2.status := by
  unfold processAckFlags
  dsimp only
  repeat' split
  all_goals simp

theorem processAckFlags_sid (acc : AckAcc) (s2 : StreamState) :
    (processAckFlags acc s2).sendStreamID = s2.sendStreamID := by
  unfold processAckFlags
  dsimp only
  repeat' split
  all_goals simp

theorem processAckRest_rankOK (env : Env) (ts : ℕ) (acc : AckAcc) (s2 : StreamState) :
    RankOK s2 (processAckRest env ts acc s2).1 := by
  unfold processAckRest
  dsimp only
  split
  · have hr : RankOK s2
        (SendBuffer env ts { processAckFlags acc s2 with numResendAttempts := 0 }).1 :=
      (RankOK.rfl' _ _ (by simp [processAckFlags_status])).trans
        (SendBuffer_rankOK env ts _)
    split
    · exact hr.trans (Terminate_rankOK _ true)
    · split
      · exact hr.trans (Close_rankOK _)
      · exact hr
  · have hr : RankOK s2 (processAckFlags acc s2) :=
      RankOK.rfl' _ _ (processAckFlags_status acc s2)
    split
    · exact hr.trans (Terminate_rankOK _ true)
    · split
      · exact hr.trans (Close_rankOK _)
      · exact hr

theorem processAckRest_sid (env : Env) (ts : ℕ) (acc : AckAcc) (s2 : StreamState) :
    (processAckRest env ts acc s2).1.sendStreamID = s2.sendStreamID := by
  unfold processAckRest
  dsimp only
  repeat' split
  all_goals simp [SendBuffer_sid, Terminate_sid, Close_sid, processAckFlags_sid]

theorem ProcessAck_rankOK (env : Env) (ts : ℕ) (s : StreamState) (p : Packet) :
    RankOK s (ProcessAck env ts s p).1 := by
  unfold ProcessAck
  dsimp only
  split
  · exact RankOK.rfl' _ _ rfl
  · exact (RankOK.rfl' _ _ (by rw [ackRttUpdate_status])).trans
      (processAckRest_rankOK env ts _ _)

theorem ProcessAck_sid (env : Env) (ts : ℕ) (s : StreamState) (p : Packet) :
    (ProcessAck env ts s p).1.sendStreamID = s.sendStreamID := by
  unfold ProcessAck
  dsimp only
  split
  · rfl
  · rw [processAckRest_sid, ackRttUpdate_sid]

theorem drainSaved_rankOK (env : Env) (l : List Packet) (s : StreamState) :
    RankOK s (drainSaved env l s).1 := by
  induction l generalizing s with
  | nil => exact RankOK.rfl' _ _ rfl
  | cons q rest ih =>
    unfold drainSaved
    dsimp only
    split
    · split
      · exact (RankOK.rfl' s { s with savedPackets := rest } rfl).trans
          (ProcessPacket_rankOK env { s with savedPackets := rest } q)
      · exact ((RankOK.rfl' s { s with savedPackets := rest } rfl).trans
          (ProcessPacket_rankOK env { s with savedPackets := rest } q)).trans
          (ih (ProcessPacket env { s with savedPackets := rest } q).1)
    · exact RankOK.rfl' _ _ rfl

theorem drainSaved_sid (env : Env) (l : List Packet) (s : StreamState) :
    (drainSaved env l s).1.sendStreamID = s.sendStreamID := by
  induction l generalizing s with
  | nil => rfl
  | cons q rest ih =>
    unfold drainSaved
    dsimp only
    split
    · split
      · exact ProcessPacket_sid env _ q
      · rw [ih, ProcessPacket_sid]
    · rfl

theorem resendRecovery_status (env : Env) (s1 : StreamState) :
    (resendRecovery env s1).1.status = s1.status := by
  unfold resendRecovery
  dsimp only
  repeat' split
  all_goals simp

theorem resendRecovery_sid (env : Env) (s1 : StreamState) :
    (resendRecovery env s1).1.sendStreamID = s1.sendStreamID := by
  unfold resendRecovery
  dsimp only
  repeat' split
  all_goals simp

theorem resendAfterCollect_rankOK (env : Env) (ts : ℕ) (found : Option ℕ)
    (s : StreamState) : RankOK s (resendAfterCollect env ts found s).1 := by
  unfold resendAfterCollect
  dsimp only
  split
  · repeat' split
    all_goals exact RankOK.rfl' _ _ (by simp [resendRecovery_status])
  · exact SendBuffer_rankOK env ts s

theorem resendAfterCollect_sid (env : Env) (ts : ℕ) (found : Option ℕ)
    (s : StreamState) :
    (resendAfterCollect env ts found s).1.sendStreamID = s.sendStreamID := by
  unfold resendAfterCollect
  dsimp only
  split
  · repeat' split
    all_goals simp [resendRecovery_sid]
  · exact SendBuffer_sid env ts s

theorem ResendPacket_rankOK (env : Env) (ts : ℕ) (s0 : StreamState) :
    RankOK s0 (ResendPacket env ts s0).1 := by
  unfold ResendPacket
  dsimp only
  split
  · exact RankOK_of_terminated _ _ (Close_on_reset _ rfl)
  · split
    · exact ((RankOK.rfl' s0
          { s0 with sentPackets := (collectOverdue ts s0.rto s0.sentPackets).1 } rfl).trans
        (resendAfterCollect_rankOK env ts (collectOverdue ts s0.rto s0.sentPackets).2
          { s0 with sentPackets := (collectOverdue ts s0.rto s0.sentPackets).1 })).trans
        (RankOK.rfl' _ _ (ScheduleResend_status _))
    · exact (RankOK.rfl' s0
          { s0 with sentPackets := (collectOverdue ts s0.rto s0.sentPackets).1 } rfl).trans
        (resendAfterCollect_rankOK env ts (collectOverdue ts s0.rto s0.sentPackets).2
          { s0 with sentPackets := (collectOverdue ts s0.rto s0.sentPackets).1 })

theorem ResendPacket_sid (env : Env) (ts : ℕ) (s0 : StreamState) :
    (ResendPacket env ts s0).1.sendStreamID = s0.sendStreamID := by
  unfold ResendPacket
  dsimp only
  split
  · rw [Close_sid]
  · split
    all_goals simp [resendAfterCollect_sid]

theorem HandleResendTimer_rankOK (env : Env) (ts : ℕ) (s : StreamState) :
    RankOK s (HandleResendTimer env ts s).1 := by
  unfold HandleResendTimer
  dsimp only
  refine RankOK.trans ?_ (ResendPacket_rankOK env ts _)
  exact RankOK.rfl' _ _ rfl

theorem HandleResendTimer_sid (env : Env) (ts : ℕ) (s : StreamState) :
    (HandleResendTimer env ts s).1.sendStreamID = s.sendStreamID := by
  unfold HandleResendTimer
  dsimp only
  rw [ResendPacket_sid]

theorem HandleSendTimer_rankOK (env : Env) (ts : ℕ) (s0 : StreamState) :
    RankOK s0 (HandleSendTimer env ts s0).1 := by
  unfold HandleSendTimer
  dsimp only
  repeat' split
  all_goals first
    | (refine RankOK.trans ?_ (ResendPacket_rankOK env ts _)
       exact RankOK.rfl' _ _ rfl)
    | (refine RankOK.trans ?_ (SendBuffer_rankOK env ts _)
       exact RankOK.rfl' _ _ rfl)
    | exact RankOK.rfl' _ _ (by simp)

theorem HandleSendTimer_sid (env : Env) (ts : ℕ) (s0 : StreamState) :
    (HandleSendTimer env ts s0).1.sendStreamID = s0.sendStreamID := by
  unfold HandleSendTimer
  dsimp only
  repeat' split
  all_goals simp [ResendPacket_sid, SendBuffer_sid]

theorem HandleAckSendTimer_rankOK (env : Env) (ts : ℕ) (s : StreamState) :
    RankOK s (HandleAckSendTimer env ts s).1 := by
  unfold HandleAckSendTimer
  dsimp only
  repeat' split
  all_goals first
    | exact RankOK_of_terminated _ _ (Close_on_reset _ rfl)
    | exact RankOK.rfl' _ _ (by simp)

theorem HandleAckSendTimer_sid (env : Env) (ts : ℕ) (s : StreamState) :
    (HandleAckSendTimer env ts s).1.sendStreamID = s.sendStreamID := by
  unfold HandleAckSendTimer
  dsimp only
  repeat' split
  all_goals simp [Close_sid]

theorem HandlePing_rankOK (env : Env) (s : StreamState) (p : Packet) :
    RankOK s (HandlePing env s p).1 := by
  unfold HandlePing
  dsimp only
  split
  all_goals exact ProcessOptions_rankOK env s _ p

theorem HandlePing_sid (env : Env) (s : StreamState) (p : Packet) :
    (HandlePing env s p).1.sendStreamID = s.sendStreamID := by
  unfold HandlePing
  dsimp only
  split
  all_goals exact ProcessOptions_sid env s _ p

theorem handleNextDispatch_rankOK (env : Env) (ts : ℕ) (s2 : StreamState)
    (p : Packet) : RankOK s2 (handleNextDispatch env ts s2 p).1 := by
  unfold handleNextDispatch
  dsimp only
  repeat' split
  all_goals first
    | exact RankOK.rfl' _ _ rfl
    | exact ProcessPacket_rankOK env s2 p
    | exact (ProcessPacket_rankOK env s2 p).trans
        (drainSaved_rankOK env (ProcessPacket env s2 p).1.savedPackets
          (ProcessPacket env s2 p).1)
    | exact ((ProcessPacket_rankOK env s2 p).trans
        (drainSaved_rankOK env (ProcessPacket env s2 p).1.savedPackets
          (ProcessPacket env s2 p).1)).trans (RankOK.rfl' _ _ (ScheduleAck_status _ _))
    | exact ((ProcessPacket_rankOK env s2 p).trans
        (drainSaved_rankOK env (ProcessPacket env s2 p).1.savedPackets
          (ProcessPacket env s2 p).1)).trans (SendBuffer_rankOK env ts _)
    | exact RankOK.rfl' _ _ (by simp [SavePacket_status, ScheduleAck_status])

theorem handleNextDispatch_sid (env : Env) (ts : ℕ) (s2 : StreamState)
    (p : Packet) : (handleNextDispatch env ts s2 p).1.sendStreamID = s2.sendStreamID := by
  unfold handleNextDispatch
  dsimp only
  repeat' split
  all_goals simp [ProcessPacket_sid, drainSaved_sid, ScheduleAck_sid,
    SendBuffer_sid, SavePacket_sid]

theorem HandleNextPacket_rankOK (env : Env) (ts : ℕ) (s0 : StreamState)
    (p : Packet) : RankOK s0 (HandleNextPacket env ts s0 p).1 := by
  unfold HandleNextPacket
  dsimp only
  have key1 : ∀ s1 : StreamState, s1.status = s0.status →
      RankOK s0 (handleNextDispatch env ts (ProcessAck env ts s1 p).1 p).1 :=
    fun s1 h => ((RankOK.rfl' s0 s1 h).trans (ProcessAck_rankOK env ts s1 p)).trans
      (handleNextDispatch_rankOK env ts _ p)
  have key2 : ∀ s1 : StreamState, s1.status = s0.status →
      RankOK s0 (handleNextDispatch env ts s1 p).1 :=
    fun s1 h => (RankOK.rfl' s0 s1 h).trans (handleNextDispatch_rankOK env ts s1 p)
  repeat' split
  all_goals first
    | exact key1 _ rfl
    | exact key2 _ rfl
    | exact RankOK.rfl' _ _ rfl

/-- The sendStreamID after Stream::HandleNextPacket: dropped packets on a
terminated stream leave it alone; otherwise a zero id is adopted from the
packet's receiveStreamID (before the destination-mismatch guard), and a
non-zero id is never modified. -/
theorem HandleNextPacket_sid (env : Env) (ts : ℕ) (s0 : StreamState) (p : Packet) :
    (HandleNextPacket env ts s0 p).1.sendStreamID =
      if s0.status = eStreamStatusTerminated then s0.sendStreamID
      else if s0.sendStreamID = 0 then GetReceiveStreamID p
      else s0.sendStreamID := by
  unfold HandleNextPacket
  dsimp only
  repeat' split
  all_goals simp_all [ProcessAck_sid, handleNextDispatch_sid]

theorem intRange_length (lo hi : ℤ) : (intRange lo hi).length = (hi - lo).toNat := by
  simp [intRange]

theorem mem_intRange (m lo hi : ℤ) : m ∈ intRange lo hi ↔ lo ≤ m ∧ m < hi := by
  unfold intRange
  simp only [List.mem_map, List.mem_range]
  constructor
  · rintro ⟨i, hi', rfl⟩
    omega
  · intro h
    exact ⟨(m - lo).toNat, by omega, by omega⟩

theorem intRange_cons (lo hi : ℤ) (h : lo < hi) :
    intRange lo hi = lo :: intRange (lo + 1) hi := by
  unfold intRange
  have hn : (hi - lo).toNat = (hi - (lo + 1)).toNat + 1 := by omega
  rw [hn, List.range_succ_eq_map]
  simp only [List.map_cons, List.map_map, Nat.cast_zero, add_zero]
  congr 1
  apply List.map_congr_left
  intro i _
  simp only [Function.comp_apply]
  push_cast
  ring

theorem intRange_snoc (lo hi : ℤ) (h : lo ≤ hi) :
    intRange lo (hi + 1) = intRange lo hi ++ [hi] := by
  unfold intRange
  have hn : (hi + 1 - lo).toNat = (hi - lo).toNat + 1 := by omega
  rw [hn, List.range_succ, List.map_append]
  congr 1
  simp only [List.map_cons, List.map_nil, List.cons.injEq, and_true]
  omega

theorem intRange_append (lo mid hi : ℤ) (h1 : lo ≤ mid) (h2 : mid ≤ hi) :
    intRange lo hi = intRange lo mid ++ intRange mid hi := by
  unfold intRange
  have hn : (hi - lo).toNat = (mid - lo).toNat + (hi - mid).toNat := by omega
  rw [hn, List.range_add, List.map_append, List.map_map]
  congr 1
  apply List.map_congr_left
  intro i _
  simp only [Function.comp_apply]
  push_cast
  omega

theorem mem_of_getLast?_eq (l : List ℤ) (a : ℤ) (h : l.getLast? = some a) : a ∈ l := by
  induction l with
  | nil => simp at h
  | cons x xs ih =>
    cases xs with
    | nil =>
      simp only [List.getLast?_singleton, Option.some.injEq] at h
      simp [h]
    | cons y ys =>
      rw [List.getLast?_cons_cons] at h
      exact List.mem_cons_of_mem x (ih h)

theorem exists_getLast? (l : List ℤ) (h : l ≠ []) : ∃ a, l.getLast? = some a := by
  induction l with
  | nil => exact absurd rfl h
  | cons x xs ih =>
    cases xs with
    | nil => exact ⟨x, rfl⟩
    | cons y ys =>
      obtain ⟨a, ha⟩ := ih (by simp)
      exact ⟨a, by rw [List.getLast?_cons_cons]; exact ha⟩

/-- On a sorted saved list whose elements are at least n, the spec's filtered
range of missing numbers equals the gap-by-gap list the quick-ACK loop walks. -/
theorem intRange_filter_eq_missList (saved : List ℤ) :
    ∀ (n hi : ℤ), saved.Pairwise (· < ·) → (∀ q ∈ saved, n ≤ q) →
      saved.getLast? = some hi →
      (intRange n (hi + 1)).filter (fun m => decide (m ∉ saved)) = missList n saved := by
  induction saved with
  | nil => intro n hi _ _ hhi; simp at hhi
  | cons q rest ih =>
    intro n hi hsort hge hhi
    obtain ⟨hq, hsort'⟩ := List.pairwise_cons.mp hsort
    have hnq : n ≤ q := hge q (by simp)
    cases rest with
    | nil =>
      have hq' : hi = q := by
        simp only [List.getLast?_singleton, Option.some.injEq] at hhi
        omega
      subst hq'
      rw [intRange_snoc n hi hnq, List.filter_append]
      have h1 : (intRange n hi).filter (fun m => decide (m ∉ [hi])) = intRange n hi := by
        apply List.filter_eq_self.mpr
        intro m hm
        have := (mem_intRange m n hi).mp hm
        simp only [List.mem_singleton, decide_eq_true_eq]
        omega
      have h2 : [hi].filter (fun m => decide (m ∉ [hi])) = [] := by simp
      rw [h1, h2]
      simp [missList]
    | cons r rest' =>
      have hhi' : (r :: rest').getLast? = some hi := by
        rwa [List.getLast?_cons_cons] at hhi
      have hmem : hi ∈ r :: rest' := mem_of_getLast?_eq _ _ hhi'
      have hqhi : q < hi := hq hi hmem
      rw [intRange_append n (q + 1) (hi + 1) (by omega) (by omega),
          intRange_snoc n q hnq, List.filter_append, List.filter_append]
      have h1 : (intRange n q).filter (fun m => decide (m ∉ q :: r :: rest')) =
          intRange n q := by
        apply List.filter_eq_self.mpr
        intro m hm
        have hmr := (mem_intRange m n q).mp hm
        have hr := hq r (by simp)
        simp only [List.mem_cons, decide_eq_true_eq]
        push_neg
        refine ⟨by omega, by omega, ?_⟩
        intro hmem'
        have := hq m (by simp [hmem'])
        omega
      have h2 : [q].filter (fun m => decide (m ∉ q :: r :: rest')) = [] := by simp
      have h3 : (intRange (q + 1) (hi + 1)).filter
            (fun m => decide (m ∉ q :: r :: rest')) =
          (intRange (q + 1) (hi + 1)).filter (fun m => decide (m ∉ r :: rest')) := by
        apply List.filter_congr
        intro m hm
        have hmr := (mem_intRange m (q + 1) (hi + 1)).mp hm
        simp only [decide_eq_decide]
        constructor
        · intro hbig hsmall
          exact hbig (List.mem_cons_of_mem q hsmall)
        · intro hsmall hbig
          rcases List.mem_cons.mp hbig with h | h
          · omega
          · exact hsmall h
      rw [h1, h2, h3, ih (q + 1) hi hsort' (fun x hx => by have := hq x hx; omega) hhi']
      simp [missList]

theorem missingSeqns_eq_missList (last : ℤ) (saved : List ℤ) (hi : ℤ)
    (hsort : saved.Pairwise (· < ·)) (hge : ∀ q ∈ saved, last + 1 ≤ q)
    (hhi : saved.getLast? = some hi) :
    missingSeqns last saved = missList (last + 1) saved := by
  unfold missingSeqns
  rw [hhi]
  exact intRange_filter_eq_missList saved (last + 1) hi hsort hge hhi

/-- The quick-ACK NACK loop, characterised against the gap-by-gap missing
list: the loop chokes exactly when the accumulated NACK count plus the
remaining missing numbers reaches 256; a non-choking run appends exactly the
missing numbers and keeps ackThrough; a choking run has listed an initial
segment of the missing numbers and rewrites ackThrough to the number just
before the first missing number not listed. -/
theorem qackLoop_spec (saved : List ℤ) :
    ∀ a : QAcc,
      a.choking = false →
      a.numNacks = a.nacks.length →
      a.numNacks ≤ 255 →
      saved.Pairwise (· < ·) →
      (∀ q ∈ saved, a.nextSeqn ≤ q) →
      (∀ m ∈ a.nacks, m < a.nextSeqn) →
      (qackLoop saved a).numNacks = (qackLoop saved a).nacks.length ∧
      ((qackLoop saved a).choking = true ↔
        256 ≤ a.numNacks + (missList a.nextSeqn saved).length) ∧
      ((qackLoop saved a).choking = false →
        (qackLoop saved a).nacks = a.nacks ++ missList a.nextSeqn saved ∧
        (qackLoop saved a).ackThrough = a.ackThrough) ∧
      ((qackLoop saved a).choking = true →
        (∃ rest, a.nacks ++ missList a.nextSeqn saved =
          (qackLoop saved a).nacks ++ ((qackLoop saved a).ackThrough + 1) :: rest) ∧
        ∀ m ∈ (qackLoop saved a).nacks, m ≤ (qackLoop saved a).ackThrough) := by
  induction saved with
  | nil =>
    intro a h1 h2 h3 _ _ _
    refine ⟨h2, ?_, fun _ => ⟨by simp [qackLoop, missList], by simp [qackLoop]⟩,
      fun hc => absurd hc (by simp [qackLoop, h1])⟩
    simp only [qackLoop, missList, List.length_nil, add_zero, h1,
      Bool.false_eq_true, false_iff]
    omega
  | cons q rest ih =>
    intro a h1 h2 h3 hsort hge hlt
    have hnq : a.nextSeqn ≤ q := hge q (by simp)
    obtain ⟨hq, hsort'⟩ := List.pairwise_cons.mp hsort
    have hmisshape : missList a.nextSeqn (q :: rest) =
        intRange a.nextSeqn q ++ missList (q + 1) rest := rfl
    have hglen : ((intRange a.nextSeqn q).length : ℤ) = q - a.nextSeqn := by
      rw [intRange_length]; omega
    by_cases hchoke : 256 ≤ (a.numNacks : ℤ) + (q - a.nextSeqn)
    · have hqgt : a.nextSeqn < q := by omega
      have hrun : qackLoop (q :: rest) a =
          { a with ackThrough := a.nextSeqn - 1, choking := true } := by
        rw [qackLoop, if_pos hchoke]
      rw [hrun]
      refine ⟨h2, ?_, fun hc => absurd hc (by simp), fun _ => ⟨?_, ?_⟩⟩
      · rw [hmisshape, List.length_append]
        refine iff_of_true rfl ?_
        omega
      · refine ⟨intRange (a.nextSeqn + 1) q ++ missList (q + 1) rest, ?_⟩
        rw [hmisshape, intRange_cons _ _ hqgt]
        simp only [List.cons_append, sub_add_cancel]
      · intro m hm
        have := hlt m hm
        show m ≤ a.nextSeqn - 1
        omega
    · have hrun : qackLoop (q :: rest) a = qackLoop rest (qackStep a q) := by
        rw [qackLoop, if_neg hchoke]
      have h1' : (qackStep a q).choking = false := h1
      have h2' : (qackStep a q).numNacks = (qackStep a q).nacks.length := by
        show a.numNacks + (intRange a.nextSeqn q).length =
          (a.nacks ++ intRange a.nextSeqn q).length
        rw [List.length_append, h2]
      have h3' : (qackStep a q).numNacks ≤ 255 := by
        show a.numNacks + (intRange a.nextSeqn q).length ≤ 255
        omega
      have hge' : ∀ x ∈ rest, (qackStep a q).nextSeqn ≤ x := by
        intro x hx
        have := hq x hx
        show q + 1 ≤ x
        omega
      have hlt' : ∀ m ∈ (qackStep a q).nacks, m < (qackStep a q).nextSeqn := by
        intro m hm
        show m < q + 1
        rcases List.mem_append.mp hm with h | h
        · have := hlt m h; omega
        · have := (mem_intRange m a.nextSeqn q).mp h; omega
      obtain ⟨c1, c2, c3, c4⟩ := ih (qackStep a q) h1' h2' h3' hsort' hge' hlt'
      rw [hrun, hmisshape]
      refine ⟨c1, ?_, ?_, ?_⟩
      · rw [c2]
        show 256 ≤ a.numNacks + (intRange a.nextSeqn q).length +
              (missList (q + 1) rest).length ↔
            256 ≤ a.numNacks + (intRange a.nextSeqn q ++ missList (q + 1) rest).length
        rw [List.length_append]
        omega
      · intro hcf
        obtain ⟨e1, e2⟩ := c3 hcf
        refine ⟨?_, e2⟩
        rw [e1]
        show (a.nacks ++ intRange a.nextSeqn q) ++ missList (q + 1) rest = _
        rw [List.append_assoc]
      · intro hct
        obtain ⟨⟨rest', e⟩, hb⟩ := c4 hct
        refine ⟨⟨rest', ?_⟩, hb⟩
        rw [← List.append_assoc]
        exact e

/-! ### Claims -/

/-- C10: if no public key has been successfully set on an EDDSA25519Verifier
(SetPublicKey never called, so m_Pkey is still null, or the raw-key import
returned null), Verify returns false for every buffer, length and signature
rather than failing. -/
theorem c10_verify_without_key_is_false :
    (∀ (env : EVPEnv) (buf : Buf) (len : ℕ) (signature : Buf),
       Verify env EDDSA25519VerifierNew buf len signature = false) ∧
    (∀ (env : EVPEnv) (v : EDDSA25519Verifier) (k : Buf) (buf : Buf) (len : ℕ)
       (signature : Buf), env.importRawKey (k.take 32) = none →
       Verify env (SetPublicKey env v k) buf len signature = false) := by
  constructor
  · intro env buf len signature; rfl
  · intro env v k buf len signature h
    simp [Verify, SetPublicKey, h]

/-- Witness for C10 at a concrete failing import. -/
theorem c10_witness :
    Verify evpEnvNoneW (SetPublicKey evpEnvNoneW EDDSA25519VerifierNew [1, 2, 3])
      [0] 1 [0] = false :=
  c10_verify_without_key_is_false.2 evpEnvNoneW EDDSA25519VerifierNew [1, 2, 3]
    [0] 1 [0] rfl

/-- C4: a received packet whose ackThrough exceeds the stream's current
sequenceNumber makes ProcessAck return immediately: the stream state is left
completely unchanged (sentPackets, windowSize, RTT, prevRTT, jitter, RTO,
pacingTime, numResendAttempts, timers) and no external call is made. -/
theorem c4_bad_ackThrough_ignored_without_mutation
    (env : Env) (ts : ℕ) (s : StreamState) (p : Packet)
    (h : s.sequenceNumber < GetAckThrough p) :
    ProcessAck env ts s p = (s, []) := by
  unfold ProcessAck
  simp [h]

/-- Witness for C4: ackThrough 7 against sequenceNumber 3. -/
theorem c4_witness :
    sSeq3W.sequenceNumber < GetAckThrough pAckW ∧
    ProcessAck envW 100 sSeq3W pAckW = (sSeq3W, []) :=
  ⟨by decide, c4_bad_ackThrough_ignored_without_mutation envW 100 sSeq3W pAckW (by decide)⟩

/-- C6 (counterexample): the claim fails at the peer-requested choke. A state
satisfying the pacing invariant receives DELAY_REQUESTED = DELAY_CHOKING;
ProcessOptions sets windowSize to 1 without calling UpdatePacingTime, so
pacingTime stays at the value computed for the old window and the invariant is
violated at that observation point. -/
theorem c6_counterexample :
    pacingInv sPacingW ∧
    (ProcessOptions envW sPacingW PACKET_FLAG_DELAY_REQUESTED pChokeReqW).s.windowSize = 1 ∧
    ¬ pacingInv (ProcessOptions envW sPacingW PACKET_FLAG_DELAY_REQUESTED pChokeReqW).s := by
  refine ⟨?_, by decide, ?_⟩
  · show sPacingW.pacingTime =
      max sPacingW.minPacingTime (croundQ (sPacingW.rtt * 1000 / (sPacingW.windowSize : ℚ)))
    have h : sPacingW.rtt * 1000 / (sPacingW.windowSize : ℚ) = ((2000000 : ℤ) : ℚ) := by
      norm_num [sPacingW, streamStateBase, envW, INITIAL_RTT]
    rw [h, croundQ_intCast]
    have hm : sPacingW.minPacingTime = 0 := by decide
    have hp : sPacingW.pacingTime = 2000000 := by decide
    rw [hm, hp]; omega
  · intro hInv
    have h1 : (ProcessOptions envW sPacingW PACKET_FLAG_DELAY_REQUESTED pChokeReqW).s.windowSize
        = 1 := by decide
    have h2 : (ProcessOptions envW sPacingW PACKET_FLAG_DELAY_REQUESTED pChokeReqW).s.pacingTime
        = 2000000 := by decide
    have h3 : (ProcessOptions envW sPacingW PACKET_FLAG_DELAY_REQUESTED
        pChokeReqW).s.minPacingTime = 0 := by decide
    have h4 : (ProcessOptions envW sPacingW PACKET_FLAG_DELAY_REQUESTED pChokeReqW).s.rtt
        = 8000 := by decide
    unfold pacingInv at hInv
    rw [h1, h2, h3, h4] at hInv
    have h5 : (8000 : ℚ) * 1000 / (((1 : ℤ)) : ℚ) = ((8000000 : ℤ) : ℚ) := by
      push_cast; norm_num
    rw [h5, croundQ_intCast] at hInv
    omega

/-- C6 (amended): the invariant pacingTime = max (minPacingTime,
round (RTT*1000/windowSize)) is re-established by every UpdatePacingTime call,
hence holds after every RTT / windowSize change that is followed by one (the
congestion-control window changes in ProcessAck, HandleSendTimer and
ResendPacket); the peer-requested choke of ProcessOptions and the window
growth of an ACK without an RTT sample change windowSize without updating
pacingTime, where the invariant can fail. -/
theorem c6_pacing_invariant_after_update (s : StreamState)
    (h1 : 0 ≤ s.rtt) (h2 : 0 ≤ s.windowSize) :
    pacingInv (UpdatePacingTime s) := by
  unfold pacingInv
  rw [UpdatePacingTime_windowSize, UpdatePacingTime_rtt, UpdatePacingTime_minPacingTime,
    UpdatePacingTime_pacingTime s h1 h2]

/-- Witness for C6 (amended) at the choked state. -/
theorem c6_witness :
    0 ≤ sPacingW.rtt ∧ 0 ≤ sPacingW.windowSize ∧ pacingInv (UpdatePacingTime sPacingW) :=
  ⟨by decide, by decide, c6_pacing_invariant_after_update sPacingW (by decide) (by decide)⟩

/-- C1 (code_bug evidence): on a signature failure ProcessOptions closes the
stream and sets PACKET_FLAG_CLOSE only on its by-value copy of the flags (and
restores the zeroed signature bytes), but ProcessPacket tests the flags it
read before the call, so the CLOSE branch (SendClose, status Closed,
Terminate) is never taken: with an outstanding sent packet the stream is left
merely Closing and no CLOSE is delivered downstream. -/
theorem c1_close_flag_lost_between_options_and_packet :
    (ProcessOptions envW sOpenW (GetFlags pSigFailW) pSigFailW).ok = true ∧
    (ProcessOptions envW sOpenW (GetFlags pSigFailW) pSigFailW).flagsOut &&&
      PACKET_FLAG_CLOSE ≠ 0 ∧
    (ProcessOptions envW sOpenW (GetFlags pSigFailW) pSigFailW).s.status =
      eStreamStatusClosing ∧
    (ProcessOptions envW sOpenW (GetFlags pSigFailW) pSigFailW).buf = pSigFailW.buf ∧
    GetFlags pSigFailW &&& PACKET_FLAG_CLOSE = 0 ∧
    (ProcessPacket envW sOpenW pSigFailW).1.status = eStreamStatusClosing ∧
    (ProcessPacket envW sOpenW pSigFailW).1.status ≠ eStreamStatusClosed ∧
    (ProcessPacket envW sOpenW pSigFailW).1.status ≠ eStreamStatusTerminated ∧
    Effect.sendCloseEv ∉ (ProcessPacket envW sOpenW pSigFailW).2 := by
  decide

/-- C3 (code_bug evidence): the choking quick-ACK fields are not big-endian on
a little-endian host. For lastReceived = 0 with saved packet 300 the NACK list
would need 299 entries, so the code emits the choke; it writes the flags, the
options-size and the DELAY_CHOKING value with htobuf16 (host byte order), so
on a little-endian host the wire bytes are 40 00 / 02 00 / 60 EA instead of
the big-endian 00 40 / 00 02 / EA 60, and a big-endian reader (bufbe16toh, as
the receive path uses) sees neither DELAY_REQUESTED nor DELAY_CHOKING. -/
theorem c3_choking_ack_fields_not_big_endian :
    SendQuickAckBytes true sChokeW = some chokeBytesW ∧
    slice chokeBytesW 18 2 ≠ be16 PACKET_FLAG_DELAY_REQUESTED ∧
    readBe16 chokeBytesW 18 ≠ PACKET_FLAG_DELAY_REQUESTED ∧
    slice chokeBytesW 20 2 ≠ be16 2 ∧
    slice chokeBytesW 22 2 ≠ be16 DELAY_CHOKING ∧
    readBe16 chokeBytesW 22 ≠ DELAY_CHOKING ∧
    SendQuickAck sChokeW =
      some ⟨5, 6, 0, [], 0, true, PACKET_FLAG_DELAY_REQUESTED, some DELAY_CHOKING⟩ := by
  decide

/-- C9 (counterexample): a received ECHO packet with sendStreamID = 0 does not
elicit a pong: the destination takes it for a pong itself and deletes it. -/
theorem c9_counterexample_echo_with_zero_sid_dropped :
    IsEcho pPongZeroW = true ∧ GetSendStreamID pPongZeroW = 0 ∧
    (DestHandleNextPacket envPingW 0 destEmptyW pPongZeroW).2 = [Effect.deletePacket] := by
  decide

/-- C5: on a timeout-driven resend (isTimeOutResend set, isNAcked cleared by
HandleResendTimer, not the single fast-retransmit case) with an overdue sent
packet and isSendTime, ResendPacket resets RTO to INITIAL_RTO and windowSize
to INITIAL_WINDOW_SIZE, sets isWinDropped, recomputes pacingTime for the new
window, invalidates the shared routing path, increments numResendAttempts and
alternates recovery: odd attempts select another outbound tunnel, even
attempts select another remote lease. -/
theorem resendRecovery_timeout (env : Env) (s1 : StreamState)
    (hTO : s1.isTimeOutResend = true)
    (hNF : ¬ (s1.numResendAttempts = 1 ∧ s1.rto ≠ INITIAL_RTO))
    (hRS : s1.routingSession = true)
    (hRTT : 0 ≤ s1.rtt) :
    (resendRecovery env s1).1.rto = INITIAL_RTO ∧
    (resendRecovery env s1).1.windowSize = INITIAL_WINDOW_SIZE ∧
    (resendRecovery env s1).1.isWinDropped = true ∧
    (resendRecovery env s1).1.pacingTime =
      max s1.minPacingTime (croundQ (s1.rtt * 1000 / (INITIAL_WINDOW_SIZE : ℚ))) ∧
    (resendRecovery env s1).1.numResendAttempts = s1.numResendAttempts ∧
    (resendRecovery env s1).1.isNAcked = s1.isNAcked ∧
    (resendRecovery env s1).2 =
      (if s1.numResendAttempts % 2 = 1 then
        [Effect.resetRoutingPath, Effect.pickNextOutboundTunnel]
       else [Effect.resetRoutingPath, Effect.updateLease false]) := by
  unfold resendRecovery
  rw [if_neg hNF, if_pos hTO]
  dsimp only
  have hPacing : ∀ s' : StreamState, s'.rtt = s1.rtt → s'.minPacingTime = s1.minPacingTime →
      s'.windowSize = INITIAL_WINDOW_SIZE →
      (UpdatePacingTime s').pacingTime =
        max s1.minPacingTime (croundQ (s1.rtt * 1000 / (INITIAL_WINDOW_SIZE : ℚ))) := by
    intro s' e1 e2 e3
    rw [UpdatePacingTime_pacingTime s' (e1 ▸ hRTT) (by rw [e3]; norm_num [INITIAL_WINDOW_SIZE]),
      e1, e2, e3]
  by_cases hodd : s1.numResendAttempts % 2 = 1 <;>
    simp [hodd, hRS, hPacing]

theorem resendAfterCollect_timeout (env : Env) (ts : ℕ) (found : Option ℕ)
    (s : StreamState)
    (hfound : found.isSome = true)
    (hST : s.isSendTime = true)
    (hNA : s.isNAcked = false)
    (hTO : s.isTimeOutResend = true)
    (hNotFast : ¬ (s.numResendAttempts = 0 ∧ s.rto ≠ INITIAL_RTO))
    (hRS : s.routingSession = true)
    (hRTT : 0 ≤ s.rtt) :
    (resendAfterCollect env ts found s).1.rto = INITIAL_RTO ∧
    (resendAfterCollect env ts found s).1.windowSize = INITIAL_WINDOW_SIZE ∧
    (resendAfterCollect env ts found s).1.isWinDropped = true ∧
    (resendAfterCollect env ts found s).1.pacingTime =
      max s.minPacingTime (croundQ (s.rtt * 1000 / (INITIAL_WINDOW_SIZE : ℚ))) ∧
    (resendAfterCollect env ts found s).1.numResendAttempts = s.numResendAttempts + 1 ∧
    (resendAfterCollect env ts found s).1.isNAcked = false ∧
    (resendAfterCollect env ts found s).2 =
      (if (s.numResendAttempts + 1) % 2 = 1 then
        [Effect.resetRoutingPath, Effect.pickNextOutboundTunnel]
       else [Effect.resetRoutingPath, Effect.updateLease false]) ++
      [Effect.sendPacketsOut found.toList] := by
  have hr := resendRecovery_timeout env
    { s with numResendAttempts := s.numResendAttempts + 1 }
    (by simpa using hTO)
    (by rintro ⟨ha, hb⟩; exact hNotFast ⟨by simpa using ha, hb⟩)
    (by simpa using hRS)
    (by simpa using hRTT)
  obtain ⟨h1, h2, h3, h4, h5, h6, h7⟩ := hr
  have h6' : (resendRecovery env
      { s with numResendAttempts := s.numResendAttempts + 1 }).1.isNAcked = false := by
    rw [h6]; simpa using hNA
  have hs1eq : (if s.isNAcked = true then ({ s with numResendAttempts := 1 } : StreamState)
      else if s.isTimeOutResend = true then
        ({ s with numResendAttempts := s.numResendAttempts + 1 } : StreamState)
      else s) = { s with numResendAttempts := s.numResendAttempts + 1 } := by
    rw [if_neg (by simp [hNA]), if_pos hTO]
  unfold resendAfterCollect
  rw [if_pos (⟨hfound, hST⟩ : found.isSome = true ∧ s.isSendTime = true)]
  dsimp only
  rw [hs1eq]
  rw [if_neg (by simpa using h6')]
  refine ⟨by simpa using h1, by simpa using h2, by simpa using h3,
    by simpa using h4, by simpa using h5, by simpa using h6', by simpa using h7⟩

/-- C5: on a timeout-driven resend (isTimeOutResend set, isNAcked cleared by
HandleResendTimer, not the single fast-retransmit case) with an overdue sent
packet and isSendTime, ResendPacket resets RTO to INITIAL_RTO and windowSize
to INITIAL_WINDOW_SIZE, sets isWinDropped, recomputes pacingTime for the new
window, invalidates the shared routing path, increments numResendAttempts and
alternates recovery: odd attempts select another outbound tunnel, even
attempts select another remote lease. -/
theorem c5_timeout_resend_resets_and_alternates
    (env : Env) (ts : ℕ) (s : StreamState)
    (hAttempts : s.numResendAttempts < MAX_NUM_RESEND_ATTEMPTS)
    (hTO : s.isTimeOutResend = true)
    (hNA : s.isNAcked = false)
    (hST : s.isSendTime = true)
    (hOverdue : (collectOverdue ts s.rto s.sentPackets).2.isSome = true)
    (hNotFast : ¬ (s.numResendAttempts = 0 ∧ s.rto ≠ INITIAL_RTO))
    (hRS : s.routingSession = true)
    (hRTT : 0 ≤ s.rtt) :
    (ResendPacket env ts s).1.rto = INITIAL_RTO ∧
    (ResendPacket env ts s).1.windowSize = INITIAL_WINDOW_SIZE ∧
    (ResendPacket env ts s).1.isWinDropped = true ∧
    (ResendPacket env ts s).1.pacingTime =
      max s.minPacingTime (croundQ (s.rtt * 1000 / (INITIAL_WINDOW_SIZE : ℚ))) ∧
    (ResendPacket env ts s).1.numResendAttempts = s.numResendAttempts + 1 ∧
    Effect.resetRoutingPath ∈ (ResendPacket env ts s).2 ∧
    (if (s.numResendAttempts + 1) % 2 = 1 then
       Effect.pickNextOutboundTunnel ∈ (ResendPacket env ts s).2 ∧
       Effect.updateLease false ∉ (ResendPacket env ts s).2
     else
       Effect.updateLease false ∈ (ResendPacket env ts s).2 ∧
       Effect.pickNextOutboundTunnel ∉ (ResendPacket env ts s).2) := by
  have hr := resendAfterCollect_timeout env ts (collectOverdue ts s.rto s.sentPackets).2
    { s with sentPackets := (collectOverdue ts s.rto s.sentPackets).1 }
    hOverdue (by simpa using hST) (by simpa using hNA) (by simpa using hTO)
    (by simpa using hNotFast) (by simpa using hRS) (by simpa using hRTT)
  obtain ⟨h1, h2, h3, h4, h5, h6, h7⟩ := hr
  unfold ResendPacket
  rw [if_neg (not_le.mpr hAttempts)]
  dsimp only
  rw [if_pos h6]
  have hrto : (0:ℤ) <
      (resendAfterCollect env ts (collectOverdue ts s.rto s.sentPackets).2
        { s with sentPackets := (collectOverdue ts s.rto s.sentPackets).1 }).1.rto := by
    rw [h1]; norm_num [INITIAL_RTO]
  refine ⟨?_, ?_, ?_, ?_, ?_, ?_, ?_⟩
  · rw [ScheduleResend_rto_of_pos _ hrto, h1]
  · rw [ScheduleResend_windowSize, h2]
  · rw [ScheduleResend_isWinDropped, h3]
  · rw [ScheduleResend_pacingTime]
    simpa using h4
  · rw [ScheduleResend_numResendAttempts]
    simpa using h5
  · rw [h7]
    by_cases hodd : (s.numResendAttempts + 1) % 2 = 1 <;> simp [hodd]
  · rw [h7]
    by_cases hodd : (s.numResendAttempts + 1) % 2 = 1 <;> simp [hodd]

theorem pongFor_receiveStreamID (b : Buf) (pos len : ℕ)
    (h4 : 4 ≤ b.length) (hwf : ∀ x ∈ b, x < 256) :
    readBe32 (pongFor b pos len) 4 = readBe32 b 0 := by
  match b, h4 with
  | b0 :: b1 :: b2 :: b3 :: rest, _ =>
    have hb0 : b0 < 256 := hwf b0 (by simp)
    have hb1 : b1 < 256 := hwf b1 (by simp)
    have hb2 : b2 < 256 := hwf b2 (by simp)
    have hb3 : b3 < 256 := hwf b3 (by simp)
    calc readBe32 (pongFor (b0 :: b1 :: b2 :: b3 :: rest) pos len) 4
        = (b0 % 256) * 16777216 + (b1 % 256) * 65536 + (b2 % 256) * 256 + (b3 % 256) := rfl
      _ = b0 * 16777216 + b1 * 65536 + b2 * 256 + b3 := by
          rw [Nat.mod_eq_of_lt hb0, Nat.mod_eq_of_lt hb1, Nat.mod_eq_of_lt hb2,
            Nat.mod_eq_of_lt hb3]
      _ = readBe32 (b0 :: b1 :: b2 :: b3 :: rest) 0 := rfl

theorem pongFor_payload (b : Buf) (pos len : ℕ) (h4 : 4 ≤ b.length) :
    (pongFor b pos len).drop 22 = slice b pos len := by
  match b, h4 with
  | _ :: _ :: _ :: _ :: _, _ => rfl

/-- C9 (amended): every ECHO packet received by the destination with a
non-zero sendStreamID that matches no existing stream, when answer-pings is
enabled and its options verify on a fresh stream yielding a remote identity
(and leaving the buffer restored), elicits a pong whose receiveStreamID field
equals the ping's sendStreamID and whose payload equals the ping's payload
byte-for-byte. (As stated, with sendStreamID = 0, the claim is false: such a
packet is treated as a pong and dropped.) -/
theorem c9_ping_pong_roundtrip (env : Env) (ts : ℕ) (d : DestState) (p : Packet)
    (hwf : ∀ x ∈ p.buf, x < 256)
    (h4 : 4 ≤ p.buf.length)
    (hecho : IsEcho p = true)
    (hsid : GetSendStreamID p ≠ 0)
    (hcache : d.lastStream = none)
    (hlookup : lookupStream d.streams (GetSendStreamID p) = none)
    (hap : env.answerPings = true)
    (hok : (ProcessOptions env (StreamCtorIncoming env) (GetFlags p) p).ok = true)
    (hid : (ProcessOptions env (StreamCtorIncoming env) (GetFlags p)
      p).s.remoteIdentity.isSome = true)
    (hbuf : (ProcessOptions env (StreamCtorIncoming env) (GetFlags p) p).buf = p.buf) :
    Effect.pong (pongFor p.buf (GetPayloadPos p)
        (if GetPayloadPos p < p.len then p.len - GetPayloadPos p else 0)) ∈
      (DestHandleNextPacket env ts d p).2 ∧
    readBe32 (pongFor p.buf (GetPayloadPos p)
        (if GetPayloadPos p < p.len then p.len - GetPayloadPos p else 0)) 4 =
      GetSendStreamID p ∧
    (pongFor p.buf (GetPayloadPos p)
        (if GetPayloadPos p < p.len then p.len - GetPayloadPos p else 0)).drop 22 =
      slice p.buf (GetPayloadPos p) (p.len - GetPayloadPos p) := by
  refine ⟨?_, pongFor_receiveStreamID p.buf _ _ h4 hwf, ?_⟩
  · unfold DestHandleNextPacket
    dsimp only
    rw [if_pos hsid, hcache]
    simp only [hlookup, Option.isSome_none, Bool.false_eq_true, if_false]
    rw [if_pos (⟨hecho, hap⟩ : IsEcho p = true ∧ env.answerPings = true)]
    unfold HandlePing
    dsimp only
    rw [if_pos (⟨hok, hid⟩ : _ ∧ _), hbuf]
    simp
  · by_cases hlt : GetPayloadPos p < p.len
    · rw [pongFor_payload _ _ _ h4, if_pos hlt]
    · rw [pongFor_payload _ _ _ h4, if_neg hlt]
      have h0 : p.len - GetPayloadPos p = 0 := by omega
      rw [h0]

/-- Witness for C9 (amended) at a concrete ping carrying payload c8 c9
(200, 201). -/
theorem c9_witness :
    Effect.pong (pongFor pPingW.buf (GetPayloadPos pPingW)
        (if GetPayloadPos pPingW < pPingW.len then pPingW.len - GetPayloadPos pPingW
         else 0)) ∈
      (DestHandleNextPacket envPingW 0 destEmptyW pPingW).2 ∧
    readBe32 (pongFor pPingW.buf (GetPayloadPos pPingW)
        (if GetPayloadPos pPingW < pPingW.len then pPingW.len - GetPayloadPos pPingW
         else 0)) 4 = GetSendStreamID pPingW :=
  ⟨(c9_ping_pong_roundtrip envPingW 0 destEmptyW pPingW (by decide) (by decide)
      (by decide) (by decide) rfl rfl rfl (by decide) (by decide) (by decide)).1,
   (c9_ping_pong_roundtrip envPingW 0 destEmptyW pPingW (by decide) (by decide)
      (by decide) (by decide) rfl rfl rfl (by decide) (by decide) (by decide)).2.1⟩

/-- Witness for C5 at a concrete timed-out stream (first attempt, odd, so a
new outbound tunnel is selected). -/
theorem c5_witness :
    (ResendPacket envW 20000 sTimeoutW).1.rto = INITIAL_RTO ∧
    (ResendPacket envW 20000 sTimeoutW).1.windowSize = INITIAL_WINDOW_SIZE ∧
    (ResendPacket envW 20000 sTimeoutW).1.numResendAttempts = 1 ∧
    Effect.resetRoutingPath ∈ (ResendPacket envW 20000 sTimeoutW).2 := by
  have h := c5_timeout_resend_resets_and_alternates envW 20000 sTimeoutW
    (by decide) (by decide) (by decide) (by decide) (by decide) (by decide)
    (by decide) (by decide)
  exact ⟨h.1, h.2.1, h.2.2.2.2.1, h.2.2.2.2.2.1⟩

/-- C7: the stream status only ever advances along the chain
New → Open → (Closing → Closed) | Reset → Terminated. Every stream operation
(packet handling, Close, the ACK and quick-ACK paths, the three timer
handlers, resend exhaustion, ping handling) satisfies RankOK: the rank of the
status along the chain never decreases, and the transient Reset status (which
the code always follows with Close, landing in Terminated) is never the
resulting status of an operation that did not start in it. -/
theorem c7_status_monotone :
    (∀ (env : Env) (s : StreamState) (p : Packet), RankOK s (ProcessPacket env s p).1) ∧
    (∀ s : StreamState, RankOK s (Close s).1) ∧
    (∀ (env : Env) (ts : ℕ) (s : StreamState), RankOK s (SendBuffer env ts s).1) ∧
    (∀ (env : Env) (ts : ℕ) (s : StreamState) (p : Packet),
      RankOK s (ProcessAck env ts s p).1) ∧
    (∀ (env : Env) (ts : ℕ) (s : StreamState), RankOK s (ResendPacket env ts s).1) ∧
    (∀ (env : Env) (ts : ℕ) (s : StreamState), RankOK s (HandleResendTimer env ts s).1) ∧
    (∀ (env : Env) (ts : ℕ) (s : StreamState), RankOK s (HandleSendTimer env ts s).1) ∧
    (∀ (env : Env) (ts : ℕ) (s : StreamState), RankOK s (HandleAckSendTimer env ts s).1) ∧
    (∀ (env : Env) (s : StreamState) (p : Packet), RankOK s (HandlePing env s p).1) ∧
    (∀ (env : Env) (ts : ℕ) (s : StreamState) (p : Packet),
      RankOK s (HandleNextPacket env ts s p).1) :=
  ⟨ProcessPacket_rankOK, Close_rankOK, SendBuffer_rankOK, ProcessAck_rankOK,
   ResendPacket_rankOK, HandleResendTimer_rankOK, HandleSendTimer_rankOK,
   HandleAckSendTimer_rankOK, HandlePing_rankOK, HandleNextPacket_rankOK⟩

/-- C8 (counterexample): recvStreamID can be zero. The constructor fills
m_RecvStreamID with 4 bytes of RAND_bytes output, which can be all zero: with
such an RNG outcome the constructed stream has recvStreamID = 0. -/
theorem c8_counterexample_zero_recv_id :
    (StreamCtorIncoming envZeroRngW).recvStreamID = 0 := rfl

/-- C8 (amended): the stream-id discipline that does hold. Both constructors
take sendStreamID = 0 and recvStreamID straight from the RNG (so it is zero
exactly when the 4 random bytes are); HandleNextPacket on a non-terminated
stream adopts the packet's receiveStreamID exactly when sendStreamID is still
0 (even if the destination-mismatch guard then drops the packet), and
otherwise never modifies it; every other operation preserves sendStreamID.
(When the adopted value is itself 0 the id stays 0 and a later packet adopts
again, so "non-zero exactly once" holds only for non-zero adopted values.) -/
theorem c8_stream_id_discipline :
    (∀ env : Env, (StreamCtorIncoming env).sendStreamID = 0 ∧
      (StreamCtorIncoming env).recvStreamID = env.rngStreamID) ∧
    (∀ (env : Env) (remote : LeaseSet), (StreamCtorOutgoing env remote).sendStreamID = 0 ∧
      (StreamCtorOutgoing env remote).recvStreamID = env.rngStreamID) ∧
    (∀ (env : Env) (ts : ℕ) (s : StreamState) (p : Packet),
      (HandleNextPacket env ts s p).1.sendStreamID =
        if s.status = eStreamStatusTerminated then s.sendStreamID
        else if s.sendStreamID = 0 then GetReceiveStreamID p
        else s.sendStreamID) ∧
    (∀ (env : Env) (s : StreamState) (p : Packet),
      (ProcessPacket env s p).1.sendStreamID = s.sendStreamID) ∧
    (∀ (env : Env) (ts : ℕ) (s : StreamState),
      (SendBuffer env ts s).1.sendStreamID = s.sendStreamID) ∧
    (∀ (env : Env) (ts : ℕ) (s : StreamState) (p : Packet),
      (ProcessAck env ts s p).1.sendStreamID = s.sendStreamID) ∧
    (∀ (env : Env) (ts : ℕ) (s : StreamState),
      (ResendPacket env ts s).1.sendStreamID = s.sendStreamID) ∧
    (∀ (env : Env) (ts : ℕ) (s : StreamState),
      (HandleResendTimer env ts s).1.sendStreamID = s.sendStreamID) ∧
    (∀ (env : Env) (ts : ℕ) (s : StreamState),
      (HandleSendTimer env ts s).1.sendStreamID = s.sendStreamID) ∧
    (∀ (env : Env) (ts : ℕ) (s : StreamState),
      (HandleAckSendTimer env ts s).1.sendStreamID = s.sendStreamID) ∧
    (∀ s : StreamState, (Close s).1.sendStreamID = s.sendStreamID) ∧
    (∀ (env : Env) (s : StreamState) (p : Packet),
      (HandlePing env s p).1.sendStreamID = s.sendStreamID) :=
  ⟨fun _ => ⟨rfl, rfl⟩, fun _ _ => ⟨rfl, rfl⟩, HandleNextPacket_sid,
   ProcessPacket_sid, SendBuffer_sid, ProcessAck_sid, ResendPacket_sid,
   HandleResendTimer_sid, HandleSendTimer_sid, HandleAckSendTimer_sid,
   Close_sid, HandlePing_sid⟩

/-- C2: on a well-formed receiver (sorted saved packets, all past
lastReceivedSequenceNumber + 1, lastReceivedSequenceNumber ≥ -1, at least one
saved packet) SendQuickAck produces a packet; when the missing sequence
numbers between lastReceivedSequenceNumber + 1 and the highest saved packet
would need more than 255 NACK entries the packet chokes — DELAY_REQUESTED
flag, DELAY_CHOKING option value, the NACK list an initial segment of the
missing numbers, and ackThrough rewritten to one less than the first missing
number not listed — and when 255 or fewer suffice the packet lists exactly
the missing numbers and carries no flags or options. -/
theorem c2_quick_ack_nacks_or_choke (s : StreamState)
    (hsort : (savedSeqns s).Pairwise (· < ·))
    (hne : savedSeqns s ≠ [])
    (hgt : ∀ q ∈ savedSeqns s, s.lastReceivedSequenceNumber + 1 ≤ q)
    (hlast : -1 ≤ s.lastReceivedSequenceNumber) :
    ∃ a, SendQuickAck s = some a ∧
      a.numNacks = a.nacks.length ∧
      (255 < (missingSeqns s.lastReceivedSequenceNumber (savedSeqns s)).length →
        a.choking = true ∧ a.flags = PACKET_FLAG_DELAY_REQUESTED ∧
        a.delayOption = some DELAY_CHOKING ∧
        (∃ tail, missingSeqns s.lastReceivedSequenceNumber (savedSeqns s) =
          a.nacks ++ (a.ackThrough + 1) :: tail) ∧
        (∀ m ∈ a.nacks, m ≤ a.ackThrough)) ∧
      ((missingSeqns s.lastReceivedSequenceNumber (savedSeqns s)).length ≤ 255 →
        a.choking = false ∧ a.flags = 0 ∧ a.delayOption = none ∧
        a.nacks = missingSeqns s.lastReceivedSequenceNumber (savedSeqns s)) := by
  obtain ⟨hi, hhieq⟩ := exists_getLast? (savedSeqns s) hne
  have hhimem := mem_of_getLast?_eq _ _ hhieq
  have hhigt : s.lastReceivedSequenceNumber < hi := by
    have := hgt hi hhimem
    omega
  have h0 : ¬hi < 0 := by omega
  obtain ⟨c1, c2, c3, c4⟩ := qackLoop_spec (savedSeqns s)
    { nacks := [], numNacks := 0, nextSeqn := s.lastReceivedSequenceNumber + 1,
      choking := false, ackThrough := hi }
    rfl rfl (by show (0 : ℕ) ≤ 255; omega) hsort (fun q hq => hgt q hq)
    (fun m hm => absurd hm (List.not_mem_nil m))
  have hmeq : missingSeqns s.lastReceivedSequenceNumber (savedSeqns s) =
      missList (s.lastReceivedSequenceNumber + 1) (savedSeqns s) :=
    missingSeqns_eq_missList _ _ hi hsort hgt hhieq
  unfold SendQuickAck
  dsimp only
  rw [hhieq]
  dsimp only
  rw [if_pos hhigt, if_neg h0, if_pos hhigt]
  refine ⟨_, rfl, c1, ?_, ?_⟩
  · intro hlen
    rw [hmeq] at hlen
    have hch := c2.mpr (by
      show 256 ≤ 0 + (missList (s.lastReceivedSequenceNumber + 1) (savedSeqns s)).length
      omega)
    obtain ⟨⟨tail, e⟩, hb⟩ := c4 hch
    refine ⟨hch, by simp [hch], by simp [hch], ⟨tail, ?_⟩, hb⟩
    rw [hmeq]
    exact e
  · intro hlen
    rw [hmeq] at hlen
    have hch : (qackLoop (savedSeqns s)
        { nacks := [], numNacks := 0, nextSeqn := s.lastReceivedSequenceNumber + 1,
          choking := false, ackThrough := hi }).choking = false := by
      cases hAc : (qackLoop (savedSeqns s)
          { nacks := [], numNacks := 0, nextSeqn := s.lastReceivedSequenceNumber + 1,
            choking := false, ackThrough := hi }).choking
      · rfl
      · exfalso
        have h256 : 256 ≤ 0 +
            (missList (s.lastReceivedSequenceNumber + 1) (savedSeqns s)).length :=
          c2.mp hAc
        omega
    obtain ⟨e1, e2⟩ := c3 hch
    refine ⟨hch, by simp [hch], by simp [hch], ?_⟩
    rw [hmeq]
    exact e1

/-- Witness for C2 at the choked receiver sChokeW: saved packet 300 after
lastReceived 0 leaves 299 missing numbers, beyond the 255-entry budget. -/
theorem c2_witness :
    ((savedSeqns sChokeW).Pairwise (· < ·) ∧ savedSeqns sChokeW ≠ [] ∧
      (∀ q ∈ savedSeqns sChokeW, sChokeW.lastReceivedSequenceNumber + 1 ≤ q) ∧
      -1 ≤ sChokeW.lastReceivedSequenceNumber) ∧
    (∃ a, SendQuickAck sChokeW = some a ∧
      a.numNacks = a.nacks.length ∧
      (255 < (missingSeqns sChokeW.lastReceivedSequenceNumber (savedSeqns sChokeW)).length →
        a.choking = true ∧ a.flags = PACKET_FLAG_DELAY_REQUESTED ∧
        a.delayOption = some DELAY_CHOKING ∧
        (∃ tail, missingSeqns sChokeW.lastReceivedSequenceNumber (savedSeqns sChokeW) =
          a.nacks ++ (a.ackThrough + 1) :: tail) ∧
        (∀ m ∈ a.nacks, m ≤ a.ackThrough)) ∧
      ((missingSeqns sChokeW.lastReceivedSequenceNumber (savedSeqns sChokeW)).length ≤ 255 →
        a.choking = false ∧ a.flags = 0 ∧ a.delayOption = none ∧
        a.nacks = missingSeqns sChokeW.lastReceivedSequenceNumber (savedSeqns sChokeW))) :=
  ⟨⟨by decide, by decide, by decide, by decide⟩,
   c2_quick_ack_nacks_or_choke sChokeW (by decide) (by decide) (by decide) (by decide)⟩

end I2pd
